import Mathlib

/-!
Verification of the SEO article generator's orchestration core, job store and
content pipeline, shallowly embedded from the Python sources
(`models.py`, `serp_analyzer.py`, `article_generator.py`, `job_manager.py`,
`seo_agent.py`).

Modelling conventions:
* Python strings are Lean `String` (a list of characters); the string helpers
  below (`pyLower`, `pySplitWs`, `pyCount`, `pyTake`, `pyTitle`) reproduce the
  semantics of the corresponding `str` methods for the character sets the
  program uses (ASCII).
* JSON values (`json.loads` / `json.dumps`) are modelled by the `Json`
  inductive below; `json.dumps`/`json.loads` form an exact inverse pair on
  this AST, so serialization of a nested structure is modelled by its
  encoding into `Json` and parsing back out of it.  The textual layer of the
  JSON codec (lexing a raw string) is abstracted: a raw service response is
  represented by its decode outcome, `Option Json` (`none` = the text does
  not decode as JSON at all).
* Python floats are idealized as `ℚ`; `round(x, 2)` is `round2`.
* `datetime` values are modelled as abstract ticks (`Nat`); `isoformat` /
  `fromisoformat` are exact inverses, so the TEXT column stores the tick.
* Exceptions are `Except String`, carrying `str(e)`.
-/

deriving instance DecidableEq for Except

/-- JSON value AST (the image of `json.loads` on well-formed input). -/
inductive Json where
  | null : Json
  | bool : Bool → Json
  | num : ℚ → Json
  | str : String → Json
  | arr : List Json → Json
  | obj : List (String × Json) → Json

/-- Dictionary lookup `d[k]` on a JSON object: first binding wins
(as in a Python dict, where keys are unique). -/
def Json.lookupKey : Json → String → Option Json
  | .obj fields, k => fields.lookup k
  | _, _ => none

/-- `d[k]` with Python semantics: `KeyError` when the key is absent,
`TypeError` when `d` is not a dict. -/
def Json.getField (j : Json) (k : String) : Except String Json :=
  match j with
  | .obj fields =>
      match fields.lookup k with
      | some v => .ok v
      | none => .error ("KeyError: " ++ k)
  | _ => .error "TypeError: value is not a dict"

/-- `d[k]` where a string is required (an operation such as `.lower()` or
slicing is applied to the result, so a non-string raises). -/
def Json.getStr (j : Json) (k : String) : Except String String := do
  match ← j.getField k with
  | .str s => .ok s
  | _ => .error ("TypeError: " ++ k ++ " is not a string")

/-- `d.get(k)` (Python `dict.get`): `None` when absent; we further read the
result as an optional string, as the call sites do. -/
def Json.getOptStr (j : Json) (k : String) : Option String :=
  match j.lookupKey k with
  | some (.str s) => some s
  | _ => none

/-! ## Python string helpers -/

/-- ASCII lower-casing of one character (`str.lower` per character). -/
def pyLowerChar (c : Char) : Char := c.toLower

/-- `s.lower()`. -/
def pyLower (s : String) : String := ⟨s.data.map pyLowerChar⟩

/-- Whitespace as split by Python's no-argument `str.split()`
(ASCII fragment). -/
def isWs (c : Char) : Bool := c = ' ' || c = '\t' || c = '\n' || c = '\r'

/-- Splits a character list into its maximal runs of characters satisfying
`keep`, dropping the delimiters: the list of "words". -/
def runsBy (keep : Char → Bool) : List Char → List (List Char)
  | [] => []
  | c :: cs =>
      let rest := runsBy keep cs
      if keep c then
        match cs with
        | [] => [[c]]
        | d :: _ =>
            if keep d then
              match rest with
              | w :: ws => (c :: w) :: ws
              | [] => [[c]]
            else [c] :: rest
      else rest

/-- `s.split()` (no argument): maximal non-whitespace runs. -/
def pySplitWs (s : String) : List String :=
  (runsBy (fun c => !isWs c) s.data).map (fun w => ⟨w⟩)

/-- `len(s.split())`: the word count used by the article generator. -/
def pyWordCount (s : String) : Nat := (pySplitWs s).length

/-- Auxiliary scan for `str.count` with a non-empty needle: counts
non-overlapping occurrences left to right, skipping past each match. -/
def pyCountAux (needle : List Char) : List Char → Nat
  | [] => 0
  | c :: rest =>
      if needle.isPrefixOf (c :: rest) then
        1 + pyCountAux needle (rest.drop (needle.length - 1))
      else
        pyCountAux needle rest
termination_by l => l.length
decreasing_by
  · simp only [List.length_drop, List.length_cons]; omega
  · simp only [List.length_cons]; omega

/-- `haystack.count(needle)`: Python counts non-overlapping occurrences, and
`s.count("")` is `len(s) + 1`. -/
def pyCount (haystack needle : String) : Nat :=
  if needle.data = [] then haystack.data.length + 1
  else pyCountAux needle.data haystack.data

/-- `s[:n]` on a string. -/
def pyTake (s : String) (n : Nat) : String := ⟨s.data.take n⟩

/-- Auxiliary for `str.title`: `prevAlpha` says whether the previous
character was alphabetic. -/
def pyTitleAux : Bool → List Char → List Char
  | _, [] => []
  | prevAlpha, c :: cs =>
      let c' := if c.isAlpha then (if prevAlpha then c.toLower else c.toUpper) else c
      c' :: pyTitleAux c.isAlpha cs

/-- `s.title()` (ASCII fragment): the first letter of every alphabetic run is
upper-cased, the rest lower-cased. -/
def pyTitle (s : String) : String := ⟨pyTitleAux false s.data⟩

/-- `round(x, 2)` idealized over `ℚ`. -/
def round2 (q : ℚ) : ℚ := (round (q * 100) : ℤ) / 100

/-! ## Data model (`models.py`) -/

/-- `JobStatus` enumeration. -/
inductive JobStatus where
  | pending
  | running
  | completed
  | failed
  deriving DecidableEq, Repr

/-- `JobStatus.value`: the string stored in the `status` column. -/
def JobStatus.value : JobStatus → String
  | .pending => "pending"
  | .running => "running"
  | .completed => "completed"
  | .failed => "failed"

/-- `JobStatus(s)`: reconstruction from the stored string
(`ValueError` for an unknown value, modelled as `none`). -/
def JobStatus.ofValue (s : String) : Option JobStatus :=
  if s = "pending" then some .pending
  else if s = "running" then some .running
  else if s = "completed" then some .completed
  else if s = "failed" then some .failed
  else none

/-- `SERPResult`. -/
structure SERPResult where
  rank : Int
  url : String
  title : String
  snippet : String
  deriving DecidableEq, Repr

/-- `SERPData`. -/
structure SERPData where
  query : String
  results : List SERPResult
  deriving DecidableEq, Repr

/-- `KeywordAnalysis` (`keyword_density` is a Python float, idealized `ℚ`). -/
structure KeywordAnalysis where
  primary_keyword : String
  secondary_keywords : List String
  keyword_density : ℚ
  deriving DecidableEq, Repr

/-- `InternalLink`. -/
structure InternalLink where
  anchor_text : String
  target_page : String
  context : String
  deriving DecidableEq, Repr

/-- `ExternalReference`. -/
structure ExternalReference where
  source_name : String
  url : String
  context : String
  deriving DecidableEq, Repr

/-- `SEOMetadata`; its validators are enforced at construction by
`SEOMetadata.make` below. -/
structure SEOMetadata where
  title_tag : String
  meta_description : String
  deriving DecidableEq, Repr

/-- Constructing an `SEOMetadata`: the pydantic validators raise when
`title_tag` exceeds 60 characters or `meta_description` exceeds 160. -/
def SEOMetadata.make (t d : String) : Except String SEOMetadata :=
  if t.length > 60 then .error "Title tag must be 60 characters or less"
  else if d.length > 160 then .error "Meta description must be 160 characters or less"
  else .ok ⟨t, d⟩

/-- One outline section.  `models.py` types sections as bare `dict`s, but
every section the program constructs (and the shape the spec mandates) is
`{h2: str, h3: List[str]}`, which is what we model. -/
structure OutlineSection where
  h2 : String
  h3 : List String
  deriving DecidableEq, Repr

/-- `ArticleOutline`. -/
structure ArticleOutline where
  h1 : String
  sections : List OutlineSection
  deriving DecidableEq, Repr

/-- `GeneratedArticle`. -/
structure GeneratedArticle where
  content : String
  outline : ArticleOutline
  seo_metadata : SEOMetadata
  keyword_analysis : KeywordAnalysis
  internal_links : List InternalLink
  external_references : List ExternalReference
  word_count : Nat
  faq_section : Option String
  deriving DecidableEq, Repr

/-- `ArticleRequest`. -/
structure ArticleRequest where
  topic : String
  target_word_count : Int
  language : String
  deriving DecidableEq, Repr

/-- `GenerationJob`; timestamps are abstract ticks. -/
structure GenerationJob where
  job_id : String
  status : JobStatus
  request : ArticleRequest
  serp_data : Option SERPData
  article : Option GeneratedArticle
  error_message : Option String
  created_at : Nat
  updated_at : Nat
  deriving DecidableEq, Repr

/-! ## `serp_analyzer.py` -/

/-- `SERPAnalyzer._generate_mock_serp` / `get_serp_data`: deterministic mock
SERP data, ten results, rank `i+1` at position `i`. -/
def get_serp_data (query : String) : SERPData :=
  { query := query
    results := (List.range 10).map (fun (i : Nat) =>
      { rank := (i : Int) + 1
        url := s!"https://example{i}.com/article"
        title := s!"Top {10 + i} {query} - Complete Guide 2025"
        snippet := s!"Discover the best practices for {query}. Learn about tools, strategies, and tips..." }) }

/-- A regex word character (`\w`, ASCII fragment): letter, digit or
underscore.  Word boundaries `\b` sit exactly at the edges of maximal
`\w`-runs. -/
def isWordChar (c : Char) : Bool := c.isAlpha || c.isDigit || c = '_'

/-- The matches of `\b[a-zA-Z]{4,}\b` in a text, in order
(`re.findall`): since `\b` holds exactly at the edges of maximal
`\w`-runs and `[a-zA-Z]` cannot cross a non-word character, a match is
precisely a maximal `\w`-run that is purely alphabetic and has length at
least 4.  In particular an alphabetic run adjacent to a digit or an
underscore is *not* matched. -/
def findWords (s : String) : List String :=
  ((runsBy isWordChar s.data).filter
    (fun r => r.all Char.isAlpha && decide (4 ≤ r.length))).map (fun r => ⟨r⟩)

/-- The `stop_words` set of `extract_themes`. -/
def stop_words : List String :=
  ["this", "that", "with", "from", "have", "they", "will", "your",
   "about", "their", "which", "these", "best", "guide"]

/-- `" ".join(...)`. -/
def joinSpace : List String → String
  | [] => ""
  | [s] => s
  | s :: rest => s ++ " " ++ joinSpace rest

/-- `Counter(words)`: occurrence counts in first-encounter order (a Python
`Counter` is an insertion-ordered dict). -/
def bumpCount : List (String × Nat) → String → List (String × Nat)
  | [], w => [(w, 1)]
  | (x, n) :: rest, w =>
      if x = w then (x, n + 1) :: rest else (x, n) :: bumpCount rest w

/-- Builds the frequency table of a word list. -/
def countFreq (ws : List String) : List (String × Nat) := ws.foldl bumpCount []

/-- Stable insertion into a count-descending list: an element inserted from
further left in the original order goes before entries of equal count. -/
def insertDesc (p : String × Nat) : List (String × Nat) → List (String × Nat)
  | [] => [p]
  | q :: rest => if p.2 ≥ q.2 then p :: q :: rest else q :: insertDesc p rest

/-- Stable sort by descending count (the order produced by
`Counter.most_common`, which is `sorted(..., reverse=True)` and stable). -/
def sortCountDesc (l : List (String × Nat)) : List (String × Nat) :=
  l.foldr insertDesc []

/-- The text `extract_themes` scans: `" ".join(f"{title} {snippet}")` over
the results. -/
def serpAllText (serp_data : SERPData) : String :=
  joinSpace (serp_data.results.map (fun r => r.title ++ " " ++ r.snippet))

/-- `SERPAnalyzer.extract_themes`: lowercase the combined titles+snippets,
take the `\b[a-zA-Z]{4,}\b` matches, drop stop words, count, and return the
20 most common (count-descending, ties in first-encounter order). -/
def extract_themes (serp_data : SERPData) : List (String × Nat) :=
  let all_text := serpAllText serp_data
  let words := findWords (pyLower all_text)
  let meaningful_words := words.filter (fun w => !(stop_words.contains w))
  (sortCountDesc (countFreq meaningful_words)).take 20

/-- `SERPAnalyzer.generate_outline`: fixed template keyed on the query
(the `themes` argument is ignored by the code, as here). -/
def generate_outline (serp_data : SERPData) (_themes : List (String × Nat)) :
    ArticleOutline :=
  let query := serp_data.query
  { h1 := "The Complete Guide to " ++ pyTitle query
    sections :=
      [ { h2 := "What is " ++ pyTitle query ++ "?"
          h3 := ["Definition and Overview", "Why It Matters", "Key Benefits"] }
      , { h2 := "Top Strategies for " ++ pyTitle query
          h3 := ["Strategy #1: Foundation", "Strategy #2: Implementation",
                 "Strategy #3: Optimization"] }
      , { h2 := "Best Practices and Tips"
          h3 := ["Common Mistakes to Avoid", "Expert Recommendations",
                 "Tools and Resources"] }
      , { h2 := "Getting Started with " ++ pyTitle query
          h3 := ["Step-by-Step Guide", "Measuring Success", "Next Steps"] } ] }

/-- `SERPAnalyzer.extract_questions`. -/
def extract_questions (serp_data : SERPData) : List String :=
  [ "What is " ++ serp_data.query ++ "?"
  , "How do I get started with " ++ serp_data.query ++ "?"
  , "What are the benefits of " ++ serp_data.query ++ "?"
  , "What tools are best for " ++ serp_data.query ++ "?" ]

/-! ## `article_generator.py` -/

/-- `ArticleGenerator._create_fallback_article`; its `target_word_count`
parameter is unused by the Python body too. -/
def _create_fallback_article (topic : String) (outline : ArticleOutline)
    (_target_word_count : Int) : Json :=
  .obj
    [ ("article_html",
        .str ("<h1>" ++ outline.h1 ++ "</h1><p>Article content for " ++ topic ++ "...</p>"))
    , ("title_tag", .str (pyTitle topic ++ " - Complete Guide"))
    , ("meta_description",
        .str ("Learn everything about " ++ topic ++ ". Expert guide with tips and strategies."))
    , ("primary_keyword", .str topic)
    , ("secondary_keywords",
        .arr [.str (topic ++ " guide"), .str (topic ++ " tips"), .str (topic ++ " strategies")])
    , ("internal_links",
        .arr [.obj [("anchor_text", .str (topic ++ " tools")),
                    ("target_page", .str (topic ++ "-tools")),
                    ("context", .str "In tools section")]])
    , ("external_references",
        .arr [.obj [("source_name", .str "Industry Report"),
                    ("url", .str "https://example.com"),
                    ("context", .str "Cite statistics")]])
    , ("faq_html", .str ("<h2>FAQ</h2><p>Common questions about " ++ topic ++ "</p>")) ]

/-- A JSON value read as a `List[str]` (pydantic validation of
`secondary_keywords`). -/
def Json.asStrList : Json → Except String (List String)
  | .arr xs => xs.mapM (fun j =>
      match j with
      | .str s => Except.ok s
      | _ => Except.error "ValidationError: str expected")
  | _ => .error "ValidationError: list expected"

/-- `InternalLink(**link)`: `link` must be a dict carrying the three string
fields (pydantic ignores extra keys, raises on missing or non-string ones). -/
def mkInternalLink (j : Json) : Except String InternalLink := do
  let a ← j.getStr "anchor_text"
  let t ← j.getStr "target_page"
  let c ← j.getStr "context"
  .ok { anchor_text := a, target_page := t, context := c }

/-- `ExternalReference(**ref)`. -/
def mkExternalReference (j : Json) : Except String ExternalReference := do
  let s ← j.getStr "source_name"
  let u ← j.getStr "url"
  let c ← j.getStr "context"
  .ok { source_name := s, url := u, context := c }

/-- `data['internal_links']` iterated: must be a list of link dicts. -/
def readInternalLinks (j : Json) : Except String (List InternalLink) :=
  match j with
  | .arr xs => xs.mapM mkInternalLink
  | _ => .error "TypeError: internal_links is not iterable"

/-- `data['external_references']` iterated. -/
def readExternalReferences (j : Json) : Except String (List ExternalReference) :=
  match j with
  | .arr xs => xs.mapM mkExternalReference
  | _ => .error "TypeError: external_references is not iterable"

/-- `ArticleGenerator._parse_article_response`, after the JSON-decode step:
`decoded = none` models a raw text that `json.loads` rejects (the only case
the `except json.JSONDecodeError` handler catches), in which case the
fallback dict is substituted; `decoded = some j` models a raw text that
decodes to the JSON value `j`, which is then accessed with unchecked
subscripts (`data['article_html']`, ...), so a decodable value of the wrong
shape raises `KeyError`/`TypeError` out of this function. -/
def _parse_article_response (decoded : Option Json) (topic : String)
    (outline : ArticleOutline) (target_word_count : Int) :
    Except String GeneratedArticle := do
  let data := match decoded with
    | some j => j
    | none => _create_fallback_article topic outline target_word_count
  -- word_count = len(data['article_html'].split())
  let article_html ← data.getStr "article_html"
  let word_count := pyWordCount article_html
  -- keyword density on the lower-cased content
  let primary_keyword ← data.getStr "primary_keyword"
  let content_lower := pyLower article_html
  let primary_count := pyCount content_lower (pyLower primary_keyword)
  let keyword_density : ℚ :=
    if word_count > 0 then (primary_count : ℚ) / (word_count : ℚ) * 100 else 0
  -- SEOMetadata(title_tag=data['title_tag'][:60], meta_description=data['meta_description'][:160])
  let title_tag ← data.getStr "title_tag"
  let meta_description ← data.getStr "meta_description"
  let seo ← SEOMetadata.make (pyTake title_tag 60) (pyTake meta_description 160)
  let secondary ← (← data.getField "secondary_keywords").asStrList
  let ilinks ← readInternalLinks (← data.getField "internal_links")
  let erefs ← readExternalReferences (← data.getField "external_references")
  .ok
    { content := article_html
      outline := outline
      seo_metadata := seo
      keyword_analysis :=
        { primary_keyword := primary_keyword
          secondary_keywords := secondary
          keyword_density := round2 keyword_density }
      internal_links := ilinks
      external_references := erefs
      word_count := word_count
      faq_section := data.getOptStr "faq_html" }

/-- The outcome of the generative-service call in
`ArticleGenerator.generate_article`: a transport/service error (which the
generator does not catch), or the raw response as its JSON-decode outcome. -/
abbrev ServiceResponse := Except String (Option Json)

/-- `ArticleGenerator.generate_article`: invoke the service and parse its
response.  Prompt construction (`_create_article_prompt`, which also
consumes `questions`) only influences the text sent to the service, which
is abstracted into `svc`. -/
def ArticleGenerator.generate_article (svc : ServiceResponse) (topic : String)
    (outline : ArticleOutline) (target_word_count : Int)
    (_questions : List String) : Except String GeneratedArticle := do
  let decoded ← svc
  _parse_article_response decoded topic outline target_word_count

/-! ## `job_manager.py`: serialization (`_save_job` / `_row_to_job`) -/

/-- `SERPResult.dict()` as dumped to the `serp_data` column. -/
def SERPResult.toJson (r : SERPResult) : Json :=
  .obj [("rank", .num r.rank), ("url", .str r.url),
        ("title", .str r.title), ("snippet", .str r.snippet)]

/-- `SERPData.dict()`. -/
def SERPData.toJson (d : SERPData) : Json :=
  .obj [("query", .str d.query), ("results", .arr (d.results.map SERPResult.toJson))]

/-- A JSON number read back as a Python `int` (pydantic `int` field). -/
def Json.asInt : Json → Option Int
  | .num q => if q.den = 1 then some q.num else none
  | _ => none

/-- A JSON number read back as a non-negative `int` (`word_count`). -/
def Json.asNat : Json → Option Nat
  | .num q => if q.den = 1 ∧ 0 ≤ q.num then some q.num.toNat else none
  | _ => none

/-- A JSON string read back as a `str` field. -/
def Json.asStr : Json → Option String
  | .str s => some s
  | _ => none

/-- A JSON value read back as `Optional[str]` (`faq_section`):
`null` becomes `None`. -/
def Json.asOptStr : Json → Option (Option String)
  | .null => some none
  | .str s => some (some s)
  | _ => none

/-- A JSON array read back element-wise. -/
def Json.asListOf (f : Json → Option α) : Json → Option (List α)
  | .arr xs => xs.mapM f
  | _ => none

/-- `SERPResult(**...)` when deserializing the `serp_data` column. -/
def SERPResult.fromJson (j : Json) : Option SERPResult := do
  let rank ← (← j.lookupKey "rank").asInt
  let url ← (← j.lookupKey "url").asStr
  let title ← (← j.lookupKey "title").asStr
  let snippet ← (← j.lookupKey "snippet").asStr
  pure { rank := rank, url := url, title := title, snippet := snippet }

/-- `SERPData(**json.loads(serp_json))`. -/
def SERPData.fromJson (j : Json) : Option SERPData := do
  let query ← (← j.lookupKey "query").asStr
  let results ← Json.asListOf SERPResult.fromJson (← j.lookupKey "results")
  pure { query := query, results := results }

/-- `OutlineSection` as produced by `.dict()`. -/
def OutlineSection.toJson (s : OutlineSection) : Json :=
  .obj [("h2", .str s.h2), ("h3", .arr (s.h3.map Json.str))]

/-- `OutlineSection` deserialized. -/
def OutlineSection.fromJson (j : Json) : Option OutlineSection := do
  let h2 ← (← j.lookupKey "h2").asStr
  let h3 ← Json.asListOf Json.asStr (← j.lookupKey "h3")
  pure { h2 := h2, h3 := h3 }

/-- `ArticleOutline.dict()`. -/
def ArticleOutline.toJson (o : ArticleOutline) : Json :=
  .obj [("h1", .str o.h1), ("sections", .arr (o.sections.map OutlineSection.toJson))]

/-- `ArticleOutline` deserialized. -/
def ArticleOutline.fromJson (j : Json) : Option ArticleOutline := do
  let h1 ← (← j.lookupKey "h1").asStr
  let sections ← Json.asListOf OutlineSection.fromJson (← j.lookupKey "sections")
  pure { h1 := h1, sections := sections }

/-- `SEOMetadata.dict()`. -/
def SEOMetadata.toJson (m : SEOMetadata) : Json :=
  .obj [("title_tag", .str m.title_tag), ("meta_description", .str m.meta_description)]

/-- `SEOMetadata` deserialized. -/
def SEOMetadata.fromJson (j : Json) : Option SEOMetadata := do
  let t ← (← j.lookupKey "title_tag").asStr
  let d ← (← j.lookupKey "meta_description").asStr
  pure { title_tag := t, meta_description := d }

/-- `KeywordAnalysis.dict()`. -/
def KeywordAnalysis.toJson (k : KeywordAnalysis) : Json :=
  .obj [("primary_keyword", .str k.primary_keyword),
        ("secondary_keywords", .arr (k.secondary_keywords.map Json.str)),
        ("keyword_density", .num k.keyword_density)]

/-- `KeywordAnalysis` deserialized. -/
def KeywordAnalysis.fromJson (j : Json) : Option KeywordAnalysis := do
  let p ← (← j.lookupKey "primary_keyword").asStr
  let s ← Json.asListOf Json.asStr (← j.lookupKey "secondary_keywords")
  let d ← match (← j.lookupKey "keyword_density") with
    | .num q => some q
    | _ => none
  pure { primary_keyword := p, secondary_keywords := s, keyword_density := d }

/-- `InternalLink.dict()`. -/
def InternalLink.toJson (l : InternalLink) : Json :=
  .obj [("anchor_text", .str l.anchor_text), ("target_page", .str l.target_page),
        ("context", .str l.context)]

/-- `InternalLink` deserialized. -/
def InternalLink.fromJson (j : Json) : Option InternalLink := do
  let a ← (← j.lookupKey "anchor_text").asStr
  let t ← (← j.lookupKey "target_page").asStr
  let c ← (← j.lookupKey "context").asStr
  pure { anchor_text := a, target_page := t, context := c }

/-- `ExternalReference.dict()`. -/
def ExternalReference.toJson (r : ExternalReference) : Json :=
  .obj [("source_name", .str r.source_name), ("url", .str r.url),
        ("context", .str r.context)]

/-- `ExternalReference` deserialized. -/
def ExternalReference.fromJson (j : Json) : Option ExternalReference := do
  let s ← (← j.lookupKey "source_name").asStr
  let u ← (← j.lookupKey "url").asStr
  let c ← (← j.lookupKey "context").asStr
  pure { source_name := s, url := u, context := c }

/-- `GeneratedArticle.dict()` as dumped to the `article_data` column;
`faq_section = None` is dumped as JSON `null` (field present, value null). -/
def GeneratedArticle.toJson (a : GeneratedArticle) : Json :=
  .obj [("content", .str a.content),
        ("outline", a.outline.toJson),
        ("seo_metadata", a.seo_metadata.toJson),
        ("keyword_analysis", a.keyword_analysis.toJson),
        ("internal_links", .arr (a.internal_links.map InternalLink.toJson)),
        ("external_references", .arr (a.external_references.map ExternalReference.toJson)),
        ("word_count", .num a.word_count),
        ("faq_section", match a.faq_section with
          | some s => .str s
          | none => .null)]

/-- `GeneratedArticle(**json.loads(article_json))`. -/
def GeneratedArticle.fromJson (j : Json) : Option GeneratedArticle := do
  let content ← (← j.lookupKey "content").asStr
  let outline ← ArticleOutline.fromJson (← j.lookupKey "outline")
  let seo ← SEOMetadata.fromJson (← j.lookupKey "seo_metadata")
  let kw ← KeywordAnalysis.fromJson (← j.lookupKey "keyword_analysis")
  let il ← Json.asListOf InternalLink.fromJson (← j.lookupKey "internal_links")
  let er ← Json.asListOf ExternalReference.fromJson (← j.lookupKey "external_references")
  let wc ← (← j.lookupKey "word_count").asNat
  let faq ← (← j.lookupKey "faq_section").asOptStr
  pure { content := content, outline := outline, seo_metadata := seo,
         keyword_analysis := kw, internal_links := il, external_references := er,
         word_count := wc, faq_section := faq }

/-- One row of the `jobs` table.  The `serp_data`/`article_data` TEXT columns
hold `json.dumps` output, modelled by the dumped `Json` value (dumping and
re-parsing the text is exact on this AST); the timestamp TEXT columns hold
`isoformat()` output, modelled by the tick itself (ISO-8601 round-trips
exactly through `fromisoformat`). -/
structure Row where
  job_id : String
  status : String
  topic : String
  target_word_count : Int
  language : String
  serp_data : Option Json
  article_data : Option Json
  error_message : Option String
  created_at : Nat
  updated_at : Nat

/-- `JobManager._save_job`: the full-row upsert image of a job. -/
def _save_job_row (job : GenerationJob) : Row :=
  { job_id := job.job_id
    status := job.status.value
    topic := job.request.topic
    target_word_count := job.request.target_word_count
    language := job.request.language
    serp_data := job.serp_data.map SERPData.toJson
    article_data := job.article.map GeneratedArticle.toJson
    error_message := job.error_message
    created_at := job.created_at
    updated_at := job.updated_at }

/-- `JobManager._row_to_job`: reconstructing a job from a row; `none` models
the pydantic/`JobStatus` validation errors a corrupted row would raise. -/
def _row_to_job (r : Row) : Option GenerationJob := do
  let status ← JobStatus.ofValue r.status
  let serp ← match r.serp_data with
    | none => some none
    | some js => (SERPData.fromJson js).map some
  let article ← match r.article_data with
    | none => some none
    | some js => (GeneratedArticle.fromJson js).map some
  pure { job_id := r.job_id
         status := status
         request := { topic := r.topic
                      target_word_count := r.target_word_count
                      language := r.language }
         serp_data := serp
         article := article
         error_message := r.error_message
         created_at := r.created_at
         updated_at := r.updated_at }

/-! ## `job_manager.py`: store operations

The SQLite table keyed by `job_id` is modelled as a list of job records with
unique ids; `_save_job` is an upsert (`INSERT OR REPLACE`).  Working at the
job level (rather than rows) is justified by the exact serialization
round-trip proved below (`C5`): `get_job` deserializes precisely the job
that `_save_job` serialized.  `datetime.utcnow()` is passed in as `now`. -/

/-- The persisted state of the jobs table. -/
abbrev JobStore := List GenerationJob

/-- `JobManager.get_job`: point lookup by id (first match). -/
def get_job (s : JobStore) (id : String) : Option GenerationJob :=
  s.find? (fun j => j.job_id == id)

/-- `JobManager._save_job`: `INSERT OR REPLACE` keyed on `job_id`. -/
def saveJob (s : JobStore) (j : GenerationJob) : JobStore :=
  if s.any (fun k => k.job_id == j.job_id) then
    s.map (fun k => if k.job_id == j.job_id then j else k)
  else s ++ [j]

/-- The record `JobManager.create_job` constructs: status Pending, no
payloads, both timestamps `now`. -/
def pendingJob (fresh : String) (req : ArticleRequest) (now : Nat) : GenerationJob :=
  { job_id := fresh, status := .pending, request := req,
    serp_data := none, article := none, error_message := none,
    created_at := now, updated_at := now }

/-- `JobManager.create_job`: fresh id (uuid4, supplied as `fresh`),
status Pending, both timestamps `now`, persist, return the record. -/
def create_job (s : JobStore) (fresh : String) (request : ArticleRequest)
    (now : Nat) : JobStore × GenerationJob :=
  let job := pendingJob fresh request now
  (saveJob s job, job)

/-- `JobManager.update_job_status`: load, `ValueError` if absent, set status,
refresh `updated_at`, and attach the error only when it is truthy
(`if error:` is false both for `None` and for the empty string). -/
def update_job_status (s : JobStore) (id : String) (status : JobStatus)
    (error : Option String) (now : Nat) : Except String JobStore :=
  match get_job s id with
  | none => .error ("Job " ++ id ++ " not found")
  | some job =>
      let job := { job with status := status, updated_at := now }
      let job := match error with
        | some e => if e = "" then job else { job with error_message := some e }
        | none => job
      .ok (saveJob s job)

/-- `JobManager.save_serp_data`. -/
def save_serp_data (s : JobStore) (id : String) (serp : SERPData) (now : Nat) :
    Except String JobStore :=
  match get_job s id with
  | none => .error ("Job " ++ id ++ " not found")
  | some job => .ok (saveJob s { job with serp_data := some serp, updated_at := now })

/-- `JobManager.save_article`: attaches the article and forces
status Completed; note it does not touch `error_message`. -/
def save_article (s : JobStore) (id : String) (article : GeneratedArticle)
    (now : Nat) : Except String JobStore :=
  match get_job s id with
  | none => .error ("Job " ++ id ++ " not found")
  | some job =>
      .ok (saveJob s { job with article := some article,
                                status := .completed, updated_at := now })

/-! ## `seo_agent.py` -/

/-- The failure handler of `SEOAgent.generate_article`'s `except` block:
mark the job Failed with `str(e)` and re-raise `e`.  (Should that status
write itself fail, its exception propagates instead, exactly as an
exception inside a Python `except` block would.) -/
def handleFailure (s : JobStore) (id : String) (e : String) (now : Nat) :
    JobStore × Except String (Option GenerationJob) :=
  match update_job_status s id .failed (some e) now with
  | .ok s' => (s', .error e)
  | .error e2 => (s, .error e2)

/-- `SEOAgent.generate_article`: create the job, then run the pipeline under
the try/except.  `svc` is the generative-service outcome, `fresh` the uuid4
drawn by `create_job`, `now` the clock.  Returns the updated store together
with the Python outcome: `ok` with `get_job`'s result on success (its
`Optional` return type is kept), or the re-raised error. -/
def SEOAgent.generate_article (s : JobStore) (fresh : String)
    (request : ArticleRequest) (svc : ServiceResponse) (now : Nat) :
    JobStore × Except String (Option GenerationJob) :=
  let (s0, job) := create_job s fresh request now
  -- try: step 1 — transition to Running, fetch and persist SERP data
  match update_job_status s0 job.job_id .running none now with
  | .error e => handleFailure s0 job.job_id e now
  | .ok s1 =>
    let serp_data := get_serp_data request.topic
    match save_serp_data s1 job.job_id serp_data now with
    | .error e => handleFailure s1 job.job_id e now
    | .ok s2 =>
      -- step 2 — themes, outline, questions
      let themes := extract_themes serp_data
      let outline := generate_outline serp_data themes
      let questions := extract_questions serp_data
      -- step 3 — generate the article
      match ArticleGenerator.generate_article svc request.topic outline
              request.target_word_count questions with
      | .error e => handleFailure s2 job.job_id e now
      | .ok article =>
        -- step 4 — save and complete
        match save_article s2 job.job_id article now with
        | .error e => handleFailure s2 job.job_id e now
        | .ok s3 => (s3, .ok (get_job s3 job.job_id))

/-- `SEOAgent.resume_job`.  `fresh` is the uuid4 that `create_job` would
draw if the no-source-data branch re-enters `generate_article`. -/
def SEOAgent.resume_job (s : JobStore) (job_id : String) (fresh : String)
    (svc : ServiceResponse) (now : Nat) :
    JobStore × Except String (Option GenerationJob) :=
  match get_job s job_id with
  | none => (s, .error ("Job " ++ job_id ++ " not found"))
  | some job =>
    if job.status = .completed then
      (s, .ok (some job))
    else
      -- try:
      match job.serp_data with
      | some serp_data =>
          let themes := extract_themes serp_data
          let outline := generate_outline serp_data themes
          let questions := extract_questions serp_data
          match ArticleGenerator.generate_article svc job.request.topic outline
                  job.request.target_word_count questions with
          | .error e => handleFailure s job_id e now
          | .ok article =>
            match save_article s job_id article now with
            | .error e => handleFailure s job_id e now
            | .ok s' => (s', .ok (get_job s' job_id))
      | none =>
          -- start from scratch: `return self.generate_article(job.request)`
          match SEOAgent.generate_article s fresh job.request svc now with
          | (s', .ok v) => (s', .ok v)
          | (s', .error e) =>
              -- the inner raise is caught by resume_job's own except block,
              -- which marks the *original* job id Failed and re-raises
              handleFailure s' job_id e now

/-- `SEOAgent.get_job_status`: lookup, `ValueError` if absent. -/
def SEOAgent.get_job_status (s : JobStore) (job_id : String) :
    Except String GenerationJob :=
  match get_job s job_id with
  | none => .error ("Job " ++ job_id ++ " not found")
  | some job => .ok job

/-! ## Operation traces over the store

For the store-wide invariant claims, a job store is "reachable" when it is
produced from the empty table by a sequence of Job Store and Orchestrator
operations, each with arbitrary arguments (ids, payloads, service outcomes,
clock values).  An operation that raises (`NotFound`) performs no write, so
it leaves the store unchanged. -/

/-- One invocation of a Job Store or Orchestrator operation. -/
inductive StoreOp where
  | create (fresh : String) (request : ArticleRequest) (now : Nat)
  | updateStatus (id : String) (status : JobStatus) (error : Option String) (now : Nat)
  | saveSource (id : String) (serp : SERPData) (now : Nat)
  | saveArt (id : String) (article : GeneratedArticle) (now : Nat)
  | startGeneration (fresh : String) (request : ArticleRequest) (svc : ServiceResponse) (now : Nat)
  | resume (id : String) (fresh : String) (svc : ServiceResponse) (now : Nat)

/-- The effect of one operation on the persisted store (raising operations
write nothing). -/
def applyOp (s : JobStore) : StoreOp → JobStore
  | .create fresh request now => (create_job s fresh request now).1
  | .updateStatus id status error now =>
      match update_job_status s id status error now with
      | .ok s' => s'
      | .error _ => s
  | .saveSource id serp now =>
      match save_serp_data s id serp now with
      | .ok s' => s'
      | .error _ => s
  | .saveArt id article now =>
      match save_article s id article now with
      | .ok s' => s'
      | .error _ => s
  | .startGeneration fresh request svc now =>
      (SEOAgent.generate_article s fresh request svc now).1
  | .resume id fresh svc now =>
      (SEOAgent.resume_job s id fresh svc now).1

/-- The store after a sequence of operations, starting from the empty table. -/
def runOps (ops : List StoreOp) : JobStore := ops.foldl applyOp []

/-- `op.suppliesError e`: the operation `op` hands the non-empty error
string `e` to `update_job_status` — either as its explicit `error` argument,
or (for the orchestrator entry points) as the message of the pipeline
failure its failure handler records. -/
def StoreOp.suppliesError : StoreOp → String → Prop
  | .updateStatus _ _ err _, e => err = some e ∧ e ≠ ""
  | .startGeneration _ request svc _, e =>
      e ≠ "" ∧ ∃ outline questions,
        ArticleGenerator.generate_article svc request.topic outline
          request.target_word_count questions = .error e
  | .resume _ _ svc _, e =>
      e ≠ "" ∧ ∃ topic outline twc questions,
        ArticleGenerator.generate_article svc topic outline twc questions = .error e
  | _, _ => False

/-! ## Store lemmas -/

/-- Auxiliary: after the upsert-by-map, looking up the written id finds the
written record. -/
theorem find?_upsert_aux (j : GenerationJob) :
    ∀ s : List GenerationJob, s.any (fun k => k.job_id == j.job_id) = true →
      (s.map (fun k => if k.job_id == j.job_id then j else k)).find?
        (fun k => k.job_id == j.job_id) = some j
  | [], h => by simp at h
  | a :: t, h => by
      by_cases ha : (a.job_id == j.job_id) = true
      · simp [List.find?, ha]
      · have ht : t.any (fun k => k.job_id == j.job_id) = true := by
          simp only [List.any_cons, Bool.or_eq_true] at h
          rcases h with h | h
          · exact absurd h ha
          · exact h
        have ha' : (a.job_id == j.job_id) = false := by
          simpa using ha
        simp only [List.map_cons, if_neg ha]
        rw [List.find?_cons_of_neg _ (by simp [ha'])]
        exact find?_upsert_aux j t ht

/-- Auxiliary: when no record matches, lookup in the appended store finds
the appended record. -/
theorem find?_append_self (j : GenerationJob) :
    ∀ s : List GenerationJob, s.any (fun k => k.job_id == j.job_id) = false →
      (s ++ [j]).find? (fun k => k.job_id == j.job_id) = some j
  | [], _ => by simp [List.find?]
  | a :: t, h => by
      have hh : (a.job_id == j.job_id) = false ∧
          t.any (fun k => k.job_id == j.job_id) = false := by
        simpa [List.any_cons] using h
      rw [List.cons_append, List.find?_cons_of_neg _ (by simp [hh.1])]
      exact find?_append_self j t hh.2

/-- Reading back the id just written returns exactly the written record. -/
theorem get_job_saveJob (s : JobStore) (j : GenerationJob) :
    get_job (saveJob s j) j.job_id = some j := by
  unfold get_job saveJob
  split
  · next hany => exact find?_upsert_aux j s hany
  · next hany => exact find?_append_self j s (by simpa using hany)

/-- Every record in an upserted store is the written record or an old one. -/
theorem mem_saveJob {s : JobStore} {j k : GenerationJob}
    (h : k ∈ saveJob s j) : k = j ∨ k ∈ s := by
  unfold saveJob at h
  split at h
  · obtain ⟨a, ha, hak⟩ := List.mem_map.mp h
    by_cases hid : a.job_id == j.job_id
    · left; rw [← hak]; simp [hid]
    · right; rw [← hak]; simpa [hid] using ha
  · rcases List.mem_append.mp h with h | h
    · exact Or.inr h
    · exact Or.inl (by simpa using h)

/-- A successful lookup returns a member of the store. -/
theorem mem_of_get_job {s : JobStore} {id : String} {j : GenerationJob}
    (h : get_job s id = some j) : j ∈ s :=
  List.mem_of_find?_eq_some h

/-- Auxiliary: the upsert-by-map leaves lookups of other ids unchanged. -/
theorem find?_upsert_ne_aux (j : GenerationJob) (id : String)
    (h : (j.job_id == id) = false) :
    ∀ s : List GenerationJob,
      (s.map (fun k => if k.job_id == j.job_id then j else k)).find?
          (fun k => k.job_id == id)
        = s.find? (fun k => k.job_id == id)
  | [] => rfl
  | a :: t => by
      by_cases ha : (a.job_id == j.job_id) = true
      · have haj : a.job_id = j.job_id := by simpa using ha
        have hai : (a.job_id == id) = false := by rw [haj]; exact h
        simp only [List.map_cons, if_pos ha]
        rw [List.find?_cons_of_neg _ (by simp [h]),
          List.find?_cons_of_neg _ (by simp [hai])]
        exact find?_upsert_ne_aux j id h t
      · simp only [List.map_cons, if_neg ha]
        by_cases hai : (a.job_id == id) = true
        · rw [List.find?_cons_of_pos _ (by simp [hai]),
            List.find?_cons_of_pos _ (by simp [hai])]
        · rw [List.find?_cons_of_neg _ (by simp [hai]),
            List.find?_cons_of_neg _ (by simp [hai])]
          exact find?_upsert_ne_aux j id h t

/-- Looking up a different id is unaffected by an upsert. -/
theorem get_job_saveJob_ne (s : JobStore) (j : GenerationJob) (id : String)
    (h : id ≠ j.job_id) : get_job (saveJob s j) id = get_job s id := by
  have hne : (j.job_id == id) = false := by
    rw [beq_eq_false_iff_ne]
    exact fun hh => h hh.symm
  unfold get_job saveJob
  split
  · exact find?_upsert_ne_aux j id hne s
  · rw [List.find?_append]
    have h1 : [j].find? (fun k => k.job_id == id) = none := by
      simp [List.find?, hne]
    rw [h1]
    cases s.find? (fun k => k.job_id == id) <;> rfl

/-! ## Run equations of the orchestrator pipeline

The successive states the job record passes through inside
`SEOAgent.generate_article` (derived forms, spelling out the record that
each persistence call writes). -/

/-- After the transition to Running (step 1). -/
def runningJob (fresh : String) (req : ArticleRequest) (now : Nat) : GenerationJob :=
  { pendingJob fresh req now with status := JobStatus.running, updated_at := now }

/-- After the SERP data is persisted (the resumption checkpoint). -/
def serpSavedJob (fresh : String) (req : ArticleRequest) (now : Nat) : GenerationJob :=
  { runningJob fresh req now with
      serp_data := some (get_serp_data req.topic), updated_at := now }

/-- After `save_article` (step 4, Completed). -/
def completedJob (fresh : String) (req : ArticleRequest) (art : GeneratedArticle)
    (now : Nat) : GenerationJob :=
  { serpSavedJob fresh req now with
      article := some art, status := JobStatus.completed, updated_at := now }

/-- After the failure handler (Failed; the message is attached only when
non-empty, as `if error:` skips `""`). -/
def failedJob (fresh : String) (req : ArticleRequest) (e : String) (now : Nat) :
    GenerationJob :=
  if e = "" then
    { serpSavedJob fresh req now with status := JobStatus.failed, updated_at := now }
  else
    { serpSavedJob fresh req now with
        status := JobStatus.failed, updated_at := now, error_message := some e }

/-- The generator invocation `SEOAgent.generate_article` performs, with the
outline and questions the pipeline derives from the mocked SERP data. -/
def pipelineGen (svc : ServiceResponse) (req : ArticleRequest) :
    Except String GeneratedArticle :=
  let serp_data := get_serp_data req.topic
  ArticleGenerator.generate_article svc req.topic
    (generate_outline serp_data (extract_themes serp_data))
    req.target_word_count (extract_questions serp_data)

theorem pendingJob_job_id (fresh : String) (req : ArticleRequest) (now : Nat) :
    (pendingJob fresh req now).job_id = fresh := rfl

/-- `generate_article`, successful pipeline: the store receives the four
successive states of the job record and the Completed record is returned. -/
theorem generate_article_eq_ok {svc : ServiceResponse} {req : ArticleRequest}
    {art : GeneratedArticle} (s : JobStore) (fresh : String) (now : Nat)
    (h : pipelineGen svc req = .ok art) :
    SEOAgent.generate_article s fresh req svc now =
      (saveJob (saveJob (saveJob (saveJob s (pendingJob fresh req now))
          (runningJob fresh req now)) (serpSavedJob fresh req now))
          (completedJob fresh req art now),
       .ok (some (completedJob fresh req art now))) := by
  have h0 : get_job (saveJob s (pendingJob fresh req now)) fresh =
      some (pendingJob fresh req now) := get_job_saveJob s _
  have e1 : update_job_status (saveJob s (pendingJob fresh req now)) fresh
      JobStatus.running none now =
      .ok (saveJob (saveJob s (pendingJob fresh req now)) (runningJob fresh req now)) := by
    unfold update_job_status
    rw [h0]
    rfl
  have h1 : get_job (saveJob (saveJob s (pendingJob fresh req now))
      (runningJob fresh req now)) fresh = some (runningJob fresh req now) :=
    get_job_saveJob _ _
  have e2 : save_serp_data (saveJob (saveJob s (pendingJob fresh req now))
      (runningJob fresh req now)) fresh (get_serp_data req.topic) now =
      .ok (saveJob (saveJob (saveJob s (pendingJob fresh req now))
        (runningJob fresh req now)) (serpSavedJob fresh req now)) := by
    unfold save_serp_data
    rw [h1]
    rfl
  have h2 : get_job (saveJob (saveJob (saveJob s (pendingJob fresh req now))
      (runningJob fresh req now)) (serpSavedJob fresh req now)) fresh =
      some (serpSavedJob fresh req now) := get_job_saveJob _ _
  have e3 : save_article (saveJob (saveJob (saveJob s (pendingJob fresh req now))
      (runningJob fresh req now)) (serpSavedJob fresh req now)) fresh art now =
      .ok (saveJob (saveJob (saveJob (saveJob s (pendingJob fresh req now))
        (runningJob fresh req now)) (serpSavedJob fresh req now))
        (completedJob fresh req art now)) := by
    unfold save_article
    rw [h2]
    rfl
  have h3 : get_job (saveJob (saveJob (saveJob (saveJob s (pendingJob fresh req now))
      (runningJob fresh req now)) (serpSavedJob fresh req now))
      (completedJob fresh req art now)) fresh = some (completedJob fresh req art now) :=
    get_job_saveJob _ _
  have hg : ArticleGenerator.generate_article svc req.topic
      (generate_outline (get_serp_data req.topic)
        (extract_themes (get_serp_data req.topic)))
      req.target_word_count (extract_questions (get_serp_data req.topic)) = .ok art := h
  unfold SEOAgent.generate_article create_job
  simp only [pendingJob_job_id, e1, e2, hg, e3, h3]

/-- `generate_article`, failing pipeline: the only fallible step is the
generator call (job creation, the Running transition and the SERP
checkpoint all succeed on the freshly written id), so a pipeline failure
`e` leaves the store with the job marked Failed and re-raises `e`. -/
theorem generate_article_eq_err {svc : ServiceResponse} {req : ArticleRequest}
    {e : String} (s : JobStore) (fresh : String) (now : Nat)
    (h : pipelineGen svc req = .error e) :
    SEOAgent.generate_article s fresh req svc now =
      (saveJob (saveJob (saveJob (saveJob s (pendingJob fresh req now))
          (runningJob fresh req now)) (serpSavedJob fresh req now))
          (failedJob fresh req e now),
       .error e) := by
  have h0 : get_job (saveJob s (pendingJob fresh req now)) fresh =
      some (pendingJob fresh req now) := get_job_saveJob s _
  have e1 : update_job_status (saveJob s (pendingJob fresh req now)) fresh
      JobStatus.running none now =
      .ok (saveJob (saveJob s (pendingJob fresh req now)) (runningJob fresh req now)) := by
    unfold update_job_status
    rw [h0]
    rfl
  have h1 : get_job (saveJob (saveJob s (pendingJob fresh req now))
      (runningJob fresh req now)) fresh = some (runningJob fresh req now) :=
    get_job_saveJob _ _
  have e2 : save_serp_data (saveJob (saveJob s (pendingJob fresh req now))
      (runningJob fresh req now)) fresh (get_serp_data req.topic) now =
      .ok (saveJob (saveJob (saveJob s (pendingJob fresh req now))
        (runningJob fresh req now)) (serpSavedJob fresh req now)) := by
    unfold save_serp_data
    rw [h1]
    rfl
  have h2 : get_job (saveJob (saveJob (saveJob s (pendingJob fresh req now))
      (runningJob fresh req now)) (serpSavedJob fresh req now)) fresh =
      some (serpSavedJob fresh req now) := get_job_saveJob _ _
  have e3 : update_job_status (saveJob (saveJob (saveJob s (pendingJob fresh req now))
      (runningJob fresh req now)) (serpSavedJob fresh req now)) fresh
      JobStatus.failed (some e) now =
      .ok (saveJob (saveJob (saveJob (saveJob s (pendingJob fresh req now))
        (runningJob fresh req now)) (serpSavedJob fresh req now))
        (failedJob fresh req e now)) := by
    unfold update_job_status
    rw [h2]
    unfold failedJob
    by_cases he : e = "" <;> simp [he]
  have hg : ArticleGenerator.generate_article svc req.topic
      (generate_outline (get_serp_data req.topic)
        (extract_themes (get_serp_data req.topic)))
      req.target_word_count (extract_questions (get_serp_data req.topic)) = .error e := h
  unfold SEOAgent.generate_article create_job handleFailure
  simp only [pendingJob_job_id, e1, e2, hg, e3]

/-- The generator invocation `SEOAgent.resume_job` performs on the
SERP-data-present branch, re-derived from the stored source data. -/
def resumeGen (svc : ServiceResponse) (job : GenerationJob) (sd : SERPData) :
    Except String GeneratedArticle :=
  ArticleGenerator.generate_article svc job.request.topic
    (generate_outline sd (extract_themes sd))
    job.request.target_word_count (extract_questions sd)

/-- The record `save_article` writes when `resume_job` regenerates from the
checkpoint: the loaded record with the article attached and status forced to
Completed — `error_message` untouched. -/
def resumeCompletedJob (job : GenerationJob) (art : GeneratedArticle) (now : Nat) :
    GenerationJob :=
  { job with article := some art, status := JobStatus.completed, updated_at := now }

/-- The record `resume_job`'s failure handler writes: the loaded record
marked Failed, the message attached only when non-empty. -/
def resumeFailedJob (job : GenerationJob) (e : String) (now : Nat) : GenerationJob :=
  if e = "" then { job with status := JobStatus.failed, updated_at := now }
  else { job with status := JobStatus.failed, updated_at := now, error_message := some e }

/-- `resume_job` on a found, non-Completed job with stored SERP data,
successful regeneration. -/
theorem resume_job_eq_serp_ok {svc : ServiceResponse} {job : GenerationJob}
    {sd : SERPData} {art : GeneratedArticle}
    (s : JobStore) (id : String) (fresh : String) (now : Nat)
    (hfind : get_job s id = some job) (hnc : job.status ≠ .completed)
    (hsd : job.serp_data = some sd)
    (h : resumeGen svc job sd = .ok art) :
    SEOAgent.resume_job s id fresh svc now =
      (saveJob s (resumeCompletedJob job art now),
       .ok (get_job (saveJob s (resumeCompletedJob job art now)) id)) := by
  have e3 : save_article s id art now =
      .ok (saveJob s (resumeCompletedJob job art now)) := by
    unfold save_article resumeCompletedJob
    rw [hfind]
  have hg : ArticleGenerator.generate_article svc job.request.topic
      (generate_outline sd (extract_themes sd))
      job.request.target_word_count (extract_questions sd) = .ok art := h
  unfold SEOAgent.resume_job
  rw [hfind]
  simp only [if_neg hnc, hsd, hg, e3]

/-- `resume_job` on the same branch, failing regeneration. -/
theorem resume_job_eq_serp_err {svc : ServiceResponse} {job : GenerationJob}
    {sd : SERPData} {e : String}
    (s : JobStore) (id : String) (fresh : String) (now : Nat)
    (hfind : get_job s id = some job) (hnc : job.status ≠ .completed)
    (hsd : job.serp_data = some sd)
    (h : resumeGen svc job sd = .error e) :
    SEOAgent.resume_job s id fresh svc now =
      (saveJob s (resumeFailedJob job e now), .error e) := by
  have e3 : update_job_status s id JobStatus.failed (some e) now =
      .ok (saveJob s (resumeFailedJob job e now)) := by
    unfold update_job_status resumeFailedJob
    rw [hfind]
  have hg : ArticleGenerator.generate_article svc job.request.topic
      (generate_outline sd (extract_themes sd))
      job.request.target_word_count (extract_questions sd) = .error e := h
  unfold SEOAgent.resume_job handleFailure
  rw [hfind]
  simp only [if_neg hnc, hsd, hg, e3]

/-! ## Parse-level lemmas (`_parse_article_response`) -/

/-- Destructuring a successful `Except` bind. -/
theorem bindOkIff {α β : Type} (x : Except String α) (f : α → Except String β)
    {b : β} : (x >>= f) = .ok b ↔ ∃ a, x = .ok a ∧ f a = .ok b := by
  cases x with
  | ok a => simp [Bind.bind, Except.bind]
  | error e =>
      constructor
      · intro h
        simp [Bind.bind, Except.bind] at h
      · rintro ⟨a, ha, -⟩
        cases ha

/-- A slice `s[:n]` never exceeds `n` characters. -/
theorem pyTake_length_le (s : String) (n : Nat) : (pyTake s n).length ≤ n := by
  simp only [pyTake, String.length, List.length_take]
  exact min_le_left _ _

/-- A successfully validated `SEOMetadata` is exactly its inputs, and they
passed the length validators. -/
theorem make_ok_eq {t d : String} {m : SEOMetadata}
    (h : SEOMetadata.make t d = .ok m) :
    m.title_tag = t ∧ m.meta_description = d ∧ t.length ≤ 60 ∧ d.length ≤ 160 := by
  unfold SEOMetadata.make at h
  by_cases h1 : t.length > 60
  · rw [if_pos h1] at h
    cases h
  · rw [if_neg h1] at h
    by_cases h2 : d.length > 160
    · rw [if_pos h2] at h
      cases h
    · rw [if_neg h2] at h
      cases h
      exact ⟨rfl, rfl, Nat.not_lt.mp h1, Nat.not_lt.mp h2⟩

/-- The shape of every article `_parse_article_response` returns: the word
count is recomputed from the content, the metadata was truncated before
validation, and the keyword density is the guarded, rounded ratio. -/
theorem parse_ok_shape {decoded : Option Json} {topic : String}
    {outline : ArticleOutline} {twc : Int} {art : GeneratedArticle}
    (h : _parse_article_response decoded topic outline twc = .ok art) :
    art.outline = outline ∧
    art.word_count = pyWordCount art.content ∧
    art.seo_metadata.title_tag.length ≤ 60 ∧
    art.seo_metadata.meta_description.length ≤ 160 ∧
    art.keyword_analysis.keyword_density =
      round2 (if 0 < art.word_count then
        (pyCount (pyLower art.content)
          (pyLower art.keyword_analysis.primary_keyword) : ℚ)
          / (art.word_count : ℚ) * 100
      else 0) := by
  unfold _parse_article_response at h
  obtain ⟨html, hhtml, h⟩ := (bindOkIff _ _).mp h
  obtain ⟨pk, hpk, h⟩ := (bindOkIff _ _).mp h
  obtain ⟨tt, htt, h⟩ := (bindOkIff _ _).mp h
  obtain ⟨md, hmd, h⟩ := (bindOkIff _ _).mp h
  obtain ⟨seo, hseo, h⟩ := (bindOkIff _ _).mp h
  obtain ⟨skJ, hskJ, h⟩ := (bindOkIff _ _).mp h
  obtain ⟨sk, hsk, h⟩ := (bindOkIff _ _).mp h
  obtain ⟨ilJ, hilJ, h⟩ := (bindOkIff _ _).mp h
  obtain ⟨il, hil, h⟩ := (bindOkIff _ _).mp h
  obtain ⟨erJ, herJ, h⟩ := (bindOkIff _ _).mp h
  obtain ⟨er, her, h⟩ := (bindOkIff _ _).mp h
  obtain ⟨hm1, hm2, -, -⟩ := make_ok_eq hseo
  cases h
  exact ⟨rfl, rfl, by rw [hm1]; exact pyTake_length_le _ _,
    by rw [hm2]; exact pyTake_length_le _ _, rfl⟩

/-- The article `_parse_article_response` produces when handed the fallback
dict (derived form: the fallback dict pushed through the parse body). -/
def fallbackArticle (topic : String) (outline : ArticleOutline) : GeneratedArticle :=
  let content := "<h1>" ++ outline.h1 ++ "</h1><p>Article content for " ++ topic ++ "...</p>"
  let wc := pyWordCount content
  { content := content
    outline := outline
    seo_metadata :=
      { title_tag := pyTake (pyTitle topic ++ " - Complete Guide") 60
        meta_description :=
          pyTake ("Learn everything about " ++ topic ++
            ". Expert guide with tips and strategies.") 160 }
    keyword_analysis :=
      { primary_keyword := topic
        secondary_keywords := [topic ++ " guide", topic ++ " tips", topic ++ " strategies"]
        keyword_density :=
          round2 (if 0 < wc then
            (pyCount (pyLower content) (pyLower topic) : ℚ) / (wc : ℚ) * 100
          else 0) }
    internal_links := [{ anchor_text := topic ++ " tools", target_page := topic ++ "-tools",
                         context := "In tools section" }]
    external_references := [{ source_name := "Industry Report", url := "https://example.com",
                              context := "Cite statistics" }]
    word_count := wc
    faq_section := some ("<h2>FAQ</h2><p>Common questions about " ++ topic ++ "</p>") }

/-- A raw text that does not decode as JSON yields exactly the parsed
fallback article, with no error. -/
theorem parse_fallback_eq (topic : String) (outline : ArticleOutline) (twc : Int) :
    _parse_article_response none topic outline twc =
      .ok (fallbackArticle topic outline) := by
  have ht : ¬ (pyTake (pyTitle topic ++ " - Complete Guide") 60).length > 60 :=
    Nat.not_lt.mpr (pyTake_length_le _ _)
  have hd : ¬ (pyTake ("Learn everything about " ++ topic ++
      ". Expert guide with tips and strategies.") 160).length > 160 :=
    Nat.not_lt.mpr (pyTake_length_le _ _)
  have hmk : SEOMetadata.make (pyTake (pyTitle topic ++ " - Complete Guide") 60)
      (pyTake ("Learn everything about " ++ topic ++
        ". Expert guide with tips and strategies.") 160) =
      .ok { title_tag := pyTake (pyTitle topic ++ " - Complete Guide") 60
            meta_description := pyTake ("Learn everything about " ++ topic ++
              ". Expert guide with tips and strategies.") 160 } := by
    unfold SEOMetadata.make
    rw [if_neg ht, if_neg hd]
  simp [_parse_article_response, _create_fallback_article, Json.getStr,
    Json.getField, Json.lookupKey, Json.getOptStr, List.lookup, hmk,
    Json.asStrList, readInternalLinks, readExternalReferences,
    mkInternalLink, mkExternalReference, fallbackArticle,
    Bind.bind, Except.bind, pure, Except.pure, List.mapM, List.mapM.loop]

/-- A list containing a kept character has at least one run. -/
theorem runsBy_cons_ne_nil (keep : Char → Bool) (c : Char) (cs : List Char)
    (h : keep c = true) : runsBy keep (c :: cs) ≠ [] := by
  cases cs with
  | nil => simp [runsBy, h]
  | cons d t =>
      have hstep : runsBy keep (c :: d :: t) =
          (if keep c then
            (if keep d then
              (match runsBy keep (d :: t) with
               | w :: ws => (c :: w) :: ws
               | [] => [[c]])
            else [c] :: runsBy keep (d :: t))
          else runsBy keep (d :: t)) := rfl
      rw [hstep, if_pos h]
      by_cases hd : keep d = true
      · rw [if_pos hd]
        rcases hr : runsBy keep (d :: t) with _ | ⟨w, ws⟩ <;> simp
      · rw [if_neg hd]
        simp

/-- A character list containing a kept character splits into ≥1 runs. -/
theorem runsBy_ne_nil_of_mem (keep : Char → Bool) :
    ∀ (l : List Char) (c : Char), c ∈ l → keep c = true → runsBy keep l ≠ []
  | [], c, hm, _ => absurd hm (List.not_mem_nil c)
  | a :: t, c, hm, hk => by
      by_cases ha : keep a = true
      · exact runsBy_cons_ne_nil keep a t ha
      · have hct : c ∈ t := by
          rcases List.mem_cons.mp hm with rfl | hmem
          · exact absurd hk ha
          · exact hmem
        have heq : runsBy keep (a :: t) = runsBy keep t := by
          simp [runsBy, ha]
        rw [heq]
        exact runsBy_ne_nil_of_mem keep t c hct hk

/-- A string containing a non-whitespace character has a positive
`len(s.split())`. -/
theorem pyWordCount_pos_of_mem {s : String} {c : Char} (hm : c ∈ s.data)
    (hc : isWs c = false) : 0 < pyWordCount s := by
  unfold pyWordCount pySplitWs
  rw [List.length_map, List.length_pos]
  exact runsBy_ne_nil_of_mem _ s.data c hm (by simp [hc])

/-- The fallback article always counts at least one word. -/
theorem fallbackArticle_word_count_pos (topic : String) (outline : ArticleOutline) :
    0 < (fallbackArticle topic outline).word_count := by
  have hm : '<' ∈ ("<h1>" ++ outline.h1 ++ "</h1><p>Article content for "
      ++ topic ++ "...</p>").data := by
    simp [String.data_append]
  exact pyWordCount_pos_of_mem hm rfl

/-! ## Serialization round-trip lemmas -/

theorem JobStatus.ofValue_value (st : JobStatus) :
    JobStatus.ofValue st.value = some st := by
  cases st <;> rfl

/-- Element-wise deserialization undoes element-wise serialization
(stated on `mapM`'s accumulator loop). -/
theorem mapM_loop_roundtrip {α β : Type} (f : β → Option α) (g : α → β)
    (h : ∀ x, f (g x) = some x) :
    ∀ (l : List α) (acc : List α),
      List.mapM.loop f (l.map g) acc = some (acc.reverse ++ l)
  | [], acc => by simp [List.mapM.loop]
  | x :: t, acc => by
      simp [List.mapM.loop, h x, mapM_loop_roundtrip f g h t (x :: acc)]

/-- The empty-accumulator special case used below. -/
theorem mapM_map_roundtrip {α β : Type} (f : β → Option α) (g : α → β)
    (h : ∀ x, f (g x) = some x) (l : List α) :
    List.mapM.loop f (l.map g) [] = some l := by
  simpa using mapM_loop_roundtrip f g h l []

theorem serpResult_roundtrip (r : SERPResult) :
    SERPResult.fromJson r.toJson = some r := by
  simp [SERPResult.fromJson, SERPResult.toJson, Json.lookupKey, List.lookup,
    Json.asInt, Json.asStr, Option.bind, Bind.bind, Rat.den_intCast]

theorem serpData_roundtrip (d : SERPData) :
    SERPData.fromJson d.toJson = some d := by
  simp [SERPData.fromJson, SERPData.toJson, Json.lookupKey, List.lookup,
    Json.asStr, Json.asListOf, Option.bind, Bind.bind,
    mapM_map_roundtrip SERPResult.fromJson SERPResult.toJson
      serpResult_roundtrip]

theorem outlineSection_roundtrip (sec : OutlineSection) :
    OutlineSection.fromJson sec.toJson = some sec := by
  simp [OutlineSection.fromJson, OutlineSection.toJson, Json.lookupKey,
    List.lookup, Json.asStr, Json.asListOf, Option.bind, Bind.bind,
    mapM_map_roundtrip Json.asStr Json.str (fun _ => rfl)]

theorem articleOutline_roundtrip (o : ArticleOutline) :
    ArticleOutline.fromJson o.toJson = some o := by
  simp [ArticleOutline.fromJson, ArticleOutline.toJson, Json.lookupKey,
    List.lookup, Json.asStr, Json.asListOf, Option.bind, Bind.bind,
    mapM_map_roundtrip OutlineSection.fromJson OutlineSection.toJson
      outlineSection_roundtrip]

theorem seoMetadata_roundtrip (m : SEOMetadata) :
    SEOMetadata.fromJson m.toJson = some m := by
  simp [SEOMetadata.fromJson, SEOMetadata.toJson, Json.lookupKey, List.lookup,
    Json.asStr, Option.bind, Bind.bind]

theorem keywordAnalysis_roundtrip (k : KeywordAnalysis) :
    KeywordAnalysis.fromJson k.toJson = some k := by
  simp [KeywordAnalysis.fromJson, KeywordAnalysis.toJson, Json.lookupKey,
    List.lookup, Json.asStr, Json.asListOf, Option.bind, Bind.bind,
    mapM_map_roundtrip Json.asStr Json.str (fun _ => rfl)]

theorem internalLink_roundtrip (l : InternalLink) :
    InternalLink.fromJson l.toJson = some l := by
  simp [InternalLink.fromJson, InternalLink.toJson, Json.lookupKey,
    List.lookup, Json.asStr, Option.bind, Bind.bind]

theorem externalReference_roundtrip (r : ExternalReference) :
    ExternalReference.fromJson r.toJson = some r := by
  simp [ExternalReference.fromJson, ExternalReference.toJson, Json.lookupKey,
    List.lookup, Json.asStr, Option.bind, Bind.bind]

theorem generatedArticle_roundtrip (a : GeneratedArticle) :
    GeneratedArticle.fromJson a.toJson = some a := by
  have hfaq : (match a.faq_section with
      | some s => Json.str s
      | none => Json.null).asOptStr = some a.faq_section := by
    cases a.faq_section <;> rfl
  simp [GeneratedArticle.fromJson, GeneratedArticle.toJson, Json.lookupKey,
    List.lookup, Json.asStr, Json.asNat, Json.asListOf, Option.bind, Bind.bind,
    articleOutline_roundtrip, seoMetadata_roundtrip,
    keywordAnalysis_roundtrip, hfaq,
    mapM_map_roundtrip InternalLink.fromJson InternalLink.toJson
      internalLink_roundtrip,
    mapM_map_roundtrip ExternalReference.fromJson ExternalReference.toJson
      externalReference_roundtrip,
    Rat.den_natCast, Rat.num_natCast, Int.natCast_nonneg]

/-! ## Claim theorems -/

/-- C5: persisting any job record with the Job Store's save and reading the
row back reproduces every field exactly — nested source data and article
keep their shape, and the optional fields (`sourceData`, `article`,
`errorMessage`, `faqSection`) keep presence-vs-absence. -/
theorem C5_save_row_roundtrip (job : GenerationJob) :
    _row_to_job (_save_job_row job) = some job := by
  obtain ⟨jid, st, ⟨t, twc, lang⟩, sd, a, em, ca, ua⟩ := job
  rcases sd with _ | d <;> rcases a with _ | art <;>
    simp [_row_to_job, _save_job_row, JobStatus.ofValue_value,
      serpData_roundtrip, generatedArticle_roundtrip,
      Option.bind, Bind.bind]

/-- C10: the Content Source's fetch is deterministic, echoes the topic as
the query, and returns exactly ten results whose rank at position `i` is
`i + 1`. -/
theorem C10_get_serp_data_shape (topic : String) :
    (get_serp_data topic).query = topic ∧
    (get_serp_data topic).results.length = 10 ∧
    (∀ i (h : i < (get_serp_data topic).results.length),
      ((get_serp_data topic).results.get ⟨i, h⟩).rank = (i : Int) + 1) ∧
    get_serp_data topic = get_serp_data topic := by
  refine ⟨rfl, by simp [get_serp_data], ?_, rfl⟩
  intro i h
  rw [List.get_eq_getElem]
  simp only [get_serp_data, List.getElem_map, List.getElem_range]

/-- Witness for C10 at topic `"seo"`, position 0. -/
theorem C10_witness :
    ∃ h : 0 < (get_serp_data "seo").results.length,
      ((get_serp_data "seo").results.get ⟨0, h⟩).rank = (0 : Int) + 1 :=
  ⟨by simp [get_serp_data], (C10_get_serp_data_shape "seo").2.2.1 0 _⟩

/-- C7: every article the Content Generator produces — parsed or fallback,
whatever string lengths the service returned — carries a `titleTag` of at
most 60 characters and a `metaDescription` of at most 160, both truncated
before validation. -/
theorem C7_metadata_bounds {decoded : Option Json} {topic : String}
    {outline : ArticleOutline} {twc : Int} {art : GeneratedArticle}
    (h : _parse_article_response decoded topic outline twc = .ok art) :
    art.seo_metadata.title_tag.length ≤ 60 ∧
    art.seo_metadata.meta_description.length ≤ 160 :=
  ⟨(parse_ok_shape h).2.2.1, (parse_ok_shape h).2.2.2.1⟩

/-- A minimal outline for concrete witnesses. -/
def demoOutline : ArticleOutline := { h1 := "H", sections := [] }

/-- Witness for C7 on the fallback path at topic `"seo"`. -/
theorem C7_witness :
    _parse_article_response none "seo" demoOutline 800 =
      .ok (fallbackArticle "seo" demoOutline) ∧
    (fallbackArticle "seo" demoOutline).seo_metadata.title_tag.length ≤ 60 ∧
    (fallbackArticle "seo" demoOutline).seo_metadata.meta_description.length ≤ 160 := by
  have h := parse_fallback_eq "seo" demoOutline 800
  exact ⟨h, (C7_metadata_bounds h).1, (C7_metadata_bounds h).2⟩

/-- C9: the keyword density of every generated article is the
case-insensitive substring count of the primary keyword over the word
count, times 100, rounded to two decimals — guarded so that a zero-word
article gets exactly 0 with no division performed. -/
theorem C9_keyword_density {decoded : Option Json} {topic : String}
    {outline : ArticleOutline} {twc : Int} {art : GeneratedArticle}
    (h : _parse_article_response decoded topic outline twc = .ok art) :
    (art.word_count = 0 → art.keyword_analysis.keyword_density = 0) ∧
    (0 < art.word_count → art.keyword_analysis.keyword_density =
      round2 ((pyCount (pyLower art.content)
        (pyLower art.keyword_analysis.primary_keyword) : ℚ)
        / (art.word_count : ℚ) * 100)) := by
  have hd := (parse_ok_shape h).2.2.2.2
  constructor
  · intro h0
    rw [hd, h0]
    simp [round2]
  · intro hpos
    rw [hd, if_pos hpos]

/-- A decodable service response whose article content is empty. -/
def zeroWordJson : Json :=
  .obj [("article_html", .str ""), ("title_tag", .str "T"),
        ("meta_description", .str "D"), ("primary_keyword", .str "k"),
        ("secondary_keywords", .arr []), ("internal_links", .arr []),
        ("external_references", .arr [])]

/-- The article parsed from `zeroWordJson`. -/
def artZero : GeneratedArticle :=
  { content := "", outline := demoOutline,
    seo_metadata := { title_tag := "T", meta_description := "D" },
    keyword_analysis := { primary_keyword := "k", secondary_keywords := [],
                          keyword_density := round2 0 },
    internal_links := [], external_references := [],
    word_count := 0, faq_section := none }

/-- Witness for C9: a zero-word article gets keyword density exactly 0. -/
theorem C9_witness :
    _parse_article_response (some zeroWordJson) "k" demoOutline 5 = .ok artZero ∧
    artZero.keyword_analysis.keyword_density = 0 := by
  have h : _parse_article_response (some zeroWordJson) "k" demoOutline 5 =
      .ok artZero := rfl
  exact ⟨h, (C9_keyword_density h).1 rfl⟩

/-- C2, counterexample: a service response that decodes as JSON but lacks
the expected shape (the empty object) raises `KeyError` past the Content
Generator boundary instead of being replaced by the fallback — only a
JSON-decode failure is caught. -/
theorem C2_counterexample :
    _parse_article_response (some (Json.obj [])) "seo" demoOutline 800 =
      .error "KeyError: article_html" := rfl

/-- C2, amended: raw text that does not decode as JSON at all never raises
past the Content Generator boundary — the deterministic fallback article is
substituted, is well-shaped with `wordCount > 0`, and the job still
completes successfully. -/
theorem C2_amended (topic : String) (outline : ArticleOutline) (twc : Int)
    (s : JobStore) (fresh : String) (req : ArticleRequest) (now : Nat) :
    _parse_article_response none topic outline twc =
      .ok (fallbackArticle topic outline) ∧
    0 < (fallbackArticle topic outline).word_count ∧
    ∃ j, (SEOAgent.generate_article s fresh req (.ok none) now).2 = .ok (some j) ∧
      j.status = .completed := by
  refine ⟨parse_fallback_eq topic outline twc,
    fallbackArticle_word_count_pos topic outline, ?_⟩
  have hp : pipelineGen (.ok none) req =
      .ok (fallbackArticle req.topic (generate_outline (get_serp_data req.topic)
        (extract_themes (get_serp_data req.topic)))) := by
    simp [pipelineGen, ArticleGenerator.generate_article, Bind.bind, Except.bind,
      parse_fallback_eq]
  rw [generate_article_eq_ok s fresh now hp]
  exact ⟨_, rfl, rfl⟩

/-- C6: resuming a Completed job is a pure no-op — the stored record
(including `updatedAt`) is returned unchanged and nothing is written. -/
theorem C6_resume_completed_noop {s : JobStore} {id fresh : String}
    {svc : ServiceResponse} {now : Nat} {job : GenerationJob}
    (hfind : get_job s id = some job) (hc : job.status = .completed) :
    SEOAgent.resume_job s id fresh svc now = (s, .ok (some job)) := by
  unfold SEOAgent.resume_job
  rw [hfind]
  simp [hc]

/-- A concrete Completed job for the C6 witness. -/
def doneJob : GenerationJob :=
  { job_id := "J", status := .completed,
    request := { topic := "t", target_word_count := 1500, language := "en" },
    serp_data := none, article := none, error_message := none,
    created_at := 0, updated_at := 0 }

/-- Witness for C6 on a one-job store. -/
theorem C6_witness :
    SEOAgent.resume_job [doneJob] "J" "K" (.ok none) 7 =
      ([doneJob], .ok (some doneJob)) :=
  C6_resume_completed_noop rfl rfl

/-- A successful lookup returns a record bearing the looked-up id. -/
theorem get_job_id {s : JobStore} {id : String} {job : GenerationJob}
    (h : get_job s id = some job) : job.job_id = id := by
  have := List.find?_some h
  simpa using this

/-- C1 (amended): after `generate_article` finishes, the persisted record
under the drawn id is Completed on normal return and Failed on a raise —
never Pending or Running; the raised error's message is attached whenever
it is non-empty (an empty `str(e)` fails the `if error:` guard and leaves
`errorMessage` unset). -/
theorem C1_terminal_status (s : JobStore) (fresh : String) (req : ArticleRequest)
    (svc : ServiceResponse) (now : Nat) :
    ∃ j, get_job (SEOAgent.generate_article s fresh req svc now).1 fresh = some j ∧
      (j.status = .completed ∨ j.status = .failed) ∧
      (∀ v, (SEOAgent.generate_article s fresh req svc now).2 = .ok v →
        j.status = .completed) ∧
      (∀ e, (SEOAgent.generate_article s fresh req svc now).2 = .error e →
        j.status = .failed ∧ (e ≠ "" → j.error_message = some e)) := by
  cases hp : pipelineGen svc req with
  | ok art =>
      rw [generate_article_eq_ok s fresh now hp]
      dsimp only
      refine ⟨completedJob fresh req art now, ?_, Or.inl rfl, ?_, ?_⟩
      · exact get_job_saveJob _ _
      · intro v _
        rfl
      · intro e he
        simp at he
  | error e' =>
      rw [generate_article_eq_err s fresh now hp]
      dsimp only
      refine ⟨failedJob fresh req e' now, ?_, ?_, ?_, ?_⟩
      · have hfid : (failedJob fresh req e' now).job_id = fresh := by
          unfold failedJob
          split <;> rfl
        have hg := get_job_saveJob (saveJob (saveJob (saveJob s
          (pendingJob fresh req now)) (runningJob fresh req now))
          (serpSavedJob fresh req now)) (failedJob fresh req e' now)
        rw [hfid] at hg
        exact hg
      · right
        unfold failedJob
        split <;> rfl
      · intro v hv
        simp at hv
      · intro e he
        cases he
        constructor
        · unfold failedJob
          split <;> rfl
        · intro hne
          unfold failedJob
          rw [if_neg hne]

/-- The request used by concrete runs. -/
def req0 : ArticleRequest := { topic := "seo", target_word_count := 800, language := "en" }

/-- Witness for C1: a failing pipeline (service error `"boom"`) leaves the
job Failed with the message attached. -/
theorem C1_witness :
    ∃ j, get_job (SEOAgent.generate_article [] "A" req0 (.error "boom") 0).1 "A" =
        some j ∧ j.status = .failed ∧ j.error_message = some "boom" := by
  obtain ⟨j, hj, _, _, herr⟩ := C1_terminal_status [] "A" req0 (.error "boom") 0
  have h2 : (SEOAgent.generate_article [] "A" req0 (.error "boom") 0).2 =
      .error "boom" := by decide
  exact ⟨j, hj, (herr "boom" h2).1, (herr "boom" h2).2 (by decide)⟩

/-- C1, counterexample to the attachment clause as stated: a pipeline
failure whose `str(e)` is empty re-raises and marks the job Failed, but
`update_job_status`'s `if error:` guard drops the empty message, so no
error message is attached to the Failed record. -/
theorem C1_counterexample :
    (SEOAgent.generate_article [] "A" req0 (.error "") 0).2 = .error "" ∧
    (get_job (SEOAgent.generate_article [] "A" req0 (.error "") 0).1 "A").map
      (fun j => (j.status, j.error_message)) = some (JobStatus.failed, none) := by
  constructor <;> decide

/-- C4 (amended): resuming a stored, non-Completed job that has no persisted
source data re-runs the full start routine on the job's original stored
request — which creates a *second* job record under a freshly drawn id
(`createdAt` = the resume time); on success the original record is left
untouched. -/
theorem C4_resume_creates_second_record {s : JobStore} {id fresh : String}
    {svc : ServiceResponse} {now : Nat} {job : GenerationJob}
    (hfind : get_job s id = some job) (hnc : job.status ≠ .completed)
    (hsd : job.serp_data = none) (hne : fresh ≠ id) :
    ∃ j', get_job (SEOAgent.resume_job s id fresh svc now).1 fresh = some j' ∧
      j'.job_id = fresh ∧ j'.request = job.request ∧ j'.created_at = now ∧
      (∀ v, (SEOAgent.resume_job s id fresh svc now).2 = .ok v →
        get_job (SEOAgent.resume_job s id fresh svc now).1 id = some job) := by
  have hru : SEOAgent.resume_job s id fresh svc now =
      (match SEOAgent.generate_article s fresh job.request svc now with
       | (s', .ok v) => (s', .ok v)
       | (s', .error e) => handleFailure s' id e now) := by
    unfold SEOAgent.resume_job
    rw [hfind]
    simp [if_neg hnc, hsd]
  cases hp : pipelineGen svc job.request with
  | ok art =>
      rw [hru, generate_article_eq_ok s fresh now hp]
      dsimp only
      refine ⟨completedJob fresh job.request art now, ?_, rfl, rfl, rfl, ?_⟩
      · exact get_job_saveJob _ _
      · intro v _
        rw [get_job_saveJob_ne _ _ _ hne.symm, get_job_saveJob_ne _ _ _ hne.symm,
          get_job_saveJob_ne _ _ _ hne.symm, get_job_saveJob_ne _ _ _ hne.symm]
        exact hfind
  | error e =>
      rw [hru, generate_article_eq_err s fresh now hp]
      dsimp only
      have hgid : get_job (saveJob (saveJob (saveJob (saveJob s
          (pendingJob fresh job.request now)) (runningJob fresh job.request now))
          (serpSavedJob fresh job.request now)) (failedJob fresh job.request e now))
          id = some job := by
        have h4 : id ≠ (failedJob fresh job.request e now).job_id := by
          have : (failedJob fresh job.request e now).job_id = fresh := by
            unfold failedJob
            split <;> rfl
          rw [this]
          exact hne.symm
        rw [get_job_saveJob_ne _ _ _ h4, get_job_saveJob_ne _ _ _ hne.symm,
          get_job_saveJob_ne _ _ _ hne.symm, get_job_saveJob_ne _ _ _ hne.symm]
        exact hfind
      unfold handleFailure
      have hup : update_job_status (saveJob (saveJob (saveJob (saveJob s
          (pendingJob fresh job.request now)) (runningJob fresh job.request now))
          (serpSavedJob fresh job.request now)) (failedJob fresh job.request e now))
          id JobStatus.failed (some e) now =
          .ok (saveJob (saveJob (saveJob (saveJob (saveJob s
            (pendingJob fresh job.request now)) (runningJob fresh job.request now))
            (serpSavedJob fresh job.request now)) (failedJob fresh job.request e now))
            (resumeFailedJob job e now)) := by
        unfold update_job_status resumeFailedJob
        rw [hgid]
      rw [hup]
      dsimp only
      have hne2 : fresh ≠ (resumeFailedJob job e now).job_id := by
        have : (resumeFailedJob job e now).job_id = job.job_id := by
          unfold resumeFailedJob
          split <;> rfl
        rw [this, get_job_id hfind]
        exact hne
      refine ⟨failedJob fresh job.request e now, ?_, ?_, ?_, ?_, ?_⟩
      · rw [get_job_saveJob_ne _ _ _ hne2]
        have hfid : (failedJob fresh job.request e now).job_id = fresh := by
          unfold failedJob
          split <;> rfl
        have hg := get_job_saveJob (saveJob (saveJob (saveJob s
          (pendingJob fresh job.request now)) (runningJob fresh job.request now))
          (serpSavedJob fresh job.request now)) (failedJob fresh job.request e now)
        rw [hfid] at hg
        exact hg
      · unfold failedJob
        split <;> rfl
      · unfold failedJob
        split <;> rfl
      · unfold failedJob
        split <;> rfl
      · intro v hv
        simp at hv

/-- Witness for C4: a Pending job with no source data, resumed with a fresh
id drawn as `"B"`. -/
theorem C4_witness :
    ∃ j', get_job (SEOAgent.resume_job [pendingJob "A" req0 0] "A" "B"
        (.ok none) 1).1 "B" = some j' ∧
      j'.job_id = "B" ∧ j'.request = (pendingJob "A" req0 0).request ∧
      j'.created_at = 1 ∧
      (∀ v, (SEOAgent.resume_job [pendingJob "A" req0 0] "A" "B"
          (.ok none) 1).2 = .ok v →
        get_job (SEOAgent.resume_job [pendingJob "A" req0 0] "A" "B"
          (.ok none) 1).1 "A" = some (pendingJob "A" req0 0)) :=
  C4_resume_creates_second_record rfl (by decide) rfl (by decide)

/-- C4, counterexample to the claim as stated: the resume leaves the store
with two records — the untouched original `"A"` and a new Completed record
under the fresh id `"B"` created at resume time. -/
theorem C4_counterexample :
    (SEOAgent.resume_job [pendingJob "A" req0 0] "A" "B" (.ok none) 1).1.length = 2 ∧
    (get_job (SEOAgent.resume_job [pendingJob "A" req0 0] "A" "B" (.ok none) 1).1 "B").map
      (fun j => (j.job_id, j.status, j.created_at)) =
      some ("B", JobStatus.completed, 1) ∧
    get_job (SEOAgent.resume_job [pendingJob "A" req0 0] "A" "B" (.ok none) 1).1 "A" =
      some (pendingJob "A" req0 0) := by
  refine ⟨by decide, by decide, by decide⟩

/-- The tokenizer the claim describes (second definition, following the
spec's words for comparison): maximal lowercase *alphabetic* runs of length
at least 4. -/
def findWordsClaimed (s : String) : List String :=
  ((runsBy Char.isAlpha s.data).filter (fun r => decide (4 ≤ r.length))).map
    (fun r => (⟨r⟩ : String))

/-- The theme extraction the claim describes: like `extract_themes` but with
the claim's tokenizer. -/
def themesSpecClaim (serp_data : SERPData) : List (String × Nat) :=
  let all_text := serpAllText serp_data
  let words := findWordsClaimed (pyLower all_text)
  let meaningful_words := words.filter (fun w => !(stop_words.contains w))
  (sortCountDesc (countFreq meaningful_words)).take 20

/-- Source data whose only text is an alphabetic run glued to a digit. -/
def sdDigits : SERPData :=
  { query := "q", results := [{ rank := 1, url := "", title := "abcd1", snippet := "" }] }

/-- C8, counterexample to the tokenization clause as stated: in `"abcd1"`
the alphabetic run `"abcd"` of length 4 is *not* matched by
`\b[a-zA-Z]{4,}\b` (no word boundary between `d` and `1`), so the code
returns no themes where the claim's description returns `abcd ↦ 1`. -/
theorem C8_counterexample :
    extract_themes sdDigits = [] ∧ themesSpecClaim sdDigits = [("abcd", 1)] ∧
    extract_themes sdDigits ≠ themesSpecClaim sdDigits := by
  refine ⟨by decide, by decide, by decide⟩

/-- `runsBy` only depends on the predicate's values on the list. -/
theorem runsBy_congr (k1 k2 : Char → Bool) :
    ∀ l : List Char, (∀ c ∈ l, k1 c = k2 c) → runsBy k1 l = runsBy k2 l
  | [], _ => rfl
  | [c], h => by
      have hc : k1 c = k2 c := h c (List.mem_cons_self c [])
      have h1 : runsBy k1 [c] = (if k1 c then [[c]] else []) := rfl
      have h2 : runsBy k2 [c] = (if k2 c then [[c]] else []) := rfl
      rw [h1, h2, hc]
  | c :: d :: t, h => by
      have hc : k1 c = k2 c := h c (List.mem_cons_self c (d :: t))
      have hd : k1 d = k2 d := h d (by simp)
      have hrest : runsBy k1 (d :: t) = runsBy k2 (d :: t) :=
        runsBy_congr k1 k2 (d :: t) (fun x hx => h x (List.mem_cons_of_mem c hx))
      have h1 : runsBy k1 (c :: d :: t) =
          (if k1 c then
            (if k1 d then
              (match runsBy k1 (d :: t) with
               | w :: ws => (c :: w) :: ws
               | [] => [[c]])
            else [c] :: runsBy k1 (d :: t))
          else runsBy k1 (d :: t)) := rfl
      have h2 : runsBy k2 (c :: d :: t) =
          (if k2 c then
            (if k2 d then
              (match runsBy k2 (d :: t) with
               | w :: ws => (c :: w) :: ws
               | [] => [[c]])
            else [c] :: runsBy k2 (d :: t))
          else runsBy k2 (d :: t)) := rfl
      rw [h1, h2, hc, hd, hrest]

/-- Every character of every run produced by `runsBy keep` satisfies `keep`. -/
theorem mem_runsBy_all (keep : Char → Bool) :
    ∀ (l : List Char) (r : List Char), r ∈ runsBy keep l → r.all keep = true
  | [], r, h => by simp [runsBy] at h
  | [c], r, h => by
      have h1 : runsBy keep [c] = (if keep c then [[c]] else []) := rfl
      rw [h1] at h
      by_cases hc : keep c = true
      · rw [if_pos hc] at h
        simp at h
        subst h
        simp [hc]
      · rw [if_neg hc] at h
        simp at h
  | c :: d :: t, r, h => by
      have h1 : runsBy keep (c :: d :: t) =
          (if keep c then
            (if keep d then
              (match runsBy keep (d :: t) with
               | w :: ws => (c :: w) :: ws
               | [] => [[c]])
            else [c] :: runsBy keep (d :: t))
          else runsBy keep (d :: t)) := rfl
      rw [h1] at h
      by_cases hc : keep c = true
      · rw [if_pos hc] at h
        by_cases hd : keep d = true
        · rw [if_pos hd] at h
          rcases hrec : runsBy keep (d :: t) with _ | ⟨w, ws⟩
          · rw [hrec] at h
            simp at h
            subst h
            simp [hc]
          · rw [hrec] at h
            rcases List.mem_cons.mp h with rfl | hmem
            · have hw : w ∈ runsBy keep (d :: t) := by
                rw [hrec]
                exact List.mem_cons_self _ _
              have hall := mem_runsBy_all keep (d :: t) w hw
              simp [hc, hall]
            · have hws : r ∈ runsBy keep (d :: t) := by
                rw [hrec]
                exact List.mem_cons_of_mem _ hmem
              exact mem_runsBy_all keep (d :: t) r hws
        · rw [if_neg hd] at h
          rcases List.mem_cons.mp h with rfl | hmem
          · simp [hc]
          · exact mem_runsBy_all keep (d :: t) r hmem
      · rw [if_neg hc] at h
        exact mem_runsBy_all keep (d :: t) r h

/-- C8 (amended): the claim's description is exact whenever the combined
lower-cased titles+snippets contain no digit and no underscore; in general
the regex `\b[a-zA-Z]{4,}\b` keeps only the maximal word-character runs that
are purely alphabetic of length ≥ 4, and drops alphabetic runs adjacent to a
digit or underscore.  The stop-word removal, frequency count, top-20 cut and
descending order with first-encounter tie-breaking are as described. -/
theorem C8_themes_amended (sd : SERPData)
    (h : ∀ c ∈ (pyLower (serpAllText sd)).data, c.isDigit = false ∧ c ≠ '_') :
    extract_themes sd = themesSpecClaim sd := by
  unfold extract_themes themesSpecClaim
  dsimp only
  have htok : findWords (pyLower (serpAllText sd)) =
      findWordsClaimed (pyLower (serpAllText sd)) := by
    unfold findWords findWordsClaimed
    have hcong : runsBy isWordChar (pyLower (serpAllText sd)).data =
        runsBy Char.isAlpha (pyLower (serpAllText sd)).data := by
      apply runsBy_congr
      intro c hc
      obtain ⟨hd1, hd2⟩ := h c hc
      simp [isWordChar, hd1, hd2]
    rw [hcong]
    congr 1
    apply List.filter_congr
    intro r hr
    have hall := mem_runsBy_all Char.isAlpha _ r hr
    simp [hall]
  rw [htok]

/-- Digit-free source data for the C8 witness. -/
def sdW : SERPData :=
  { query := "q",
    results := [{ rank := 1, url := "", title := "alpha beta this gamma alpha",
                  snippet := "gamma alpha tool" }] }

/-- Witness for C8 on digit-free text. -/
theorem C8_witness : extract_themes sdW = themesSpecClaim sdW :=
  C8_themes_amended sdW (by decide)

/-! ## Error provenance over operation traces (C3) -/

/-- The store a successful `generate_article` run leaves behind. -/
def genOkStore (s : JobStore) (fresh : String) (req : ArticleRequest)
    (art : GeneratedArticle) (now : Nat) : JobStore :=
  saveJob (saveJob (saveJob (saveJob s (pendingJob fresh req now))
    (runningJob fresh req now)) (serpSavedJob fresh req now))
    (completedJob fresh req art now)

/-- The store a failing `generate_article` run leaves behind. -/
def genFailStore (s : JobStore) (fresh : String) (req : ArticleRequest)
    (e : String) (now : Nat) : JobStore :=
  saveJob (saveJob (saveJob (saveJob s (pendingJob fresh req now))
    (runningJob fresh req now)) (serpSavedJob fresh req now))
    (failedJob fresh req e now)

/-- Members of a successful run's store: old records, or records with no
error message. -/
theorem mem_genOkStore {s : JobStore} {fresh : String} {req : ArticleRequest}
    {art : GeneratedArticle} {now : Nat} {k : GenerationJob}
    (hk : k ∈ genOkStore s fresh req art now) :
    k ∈ s ∨ k.error_message = none := by
  unfold genOkStore at hk
  rcases mem_saveJob hk with rfl | hk
  · exact Or.inr rfl
  rcases mem_saveJob hk with rfl | hk
  · exact Or.inr rfl
  rcases mem_saveJob hk with rfl | hk
  · exact Or.inr rfl
  rcases mem_saveJob hk with rfl | hk
  · exact Or.inr rfl
  · exact Or.inl hk

/-- Members of a failing run's store: old records, records with no error
message, or the Failed record carrying the (non-empty) failure message. -/
theorem mem_genFailStore {s : JobStore} {fresh : String} {req : ArticleRequest}
    {e' : String} {now : Nat} {k : GenerationJob}
    (hk : k ∈ genFailStore s fresh req e' now) :
    k ∈ s ∨ k.error_message = none ∨ (k.error_message = some e' ∧ e' ≠ "") := by
  unfold genFailStore at hk
  rcases mem_saveJob hk with rfl | hk
  · by_cases hee : e' = ""
    · refine Or.inr (Or.inl ?_)
      unfold failedJob
      rw [if_pos hee]
      rfl
    · refine Or.inr (Or.inr ⟨?_, hee⟩)
      unfold failedJob
      rw [if_neg hee]
  rcases mem_saveJob hk with rfl | hk
  · exact Or.inr (Or.inl rfl)
  rcases mem_saveJob hk with rfl | hk
  · exact Or.inr (Or.inl rfl)
  rcases mem_saveJob hk with rfl | hk
  · exact Or.inr (Or.inl rfl)
  · exact Or.inl hk

/-- The two run equations restated through the named stores. -/
theorem generate_article_eq_okS {svc : ServiceResponse} {req : ArticleRequest}
    {art : GeneratedArticle} (s : JobStore) (fresh : String) (now : Nat)
    (h : pipelineGen svc req = .ok art) :
    SEOAgent.generate_article s fresh req svc now =
      (genOkStore s fresh req art now, .ok (some (completedJob fresh req art now))) :=
  generate_article_eq_ok s fresh now h

theorem generate_article_eq_errS {svc : ServiceResponse} {req : ArticleRequest}
    {e : String} (s : JobStore) (fresh : String) (now : Nat)
    (h : pipelineGen svc req = .error e) :
    SEOAgent.generate_article s fresh req svc now =
      (genFailStore s fresh req e now, .error e) :=
  generate_article_eq_err s fresh now h

/-- `resume_job` with no stored source data falls through to the full start
routine (with resume's own failure handler around it). -/
theorem resume_job_eq_noserp {svc : ServiceResponse} {job : GenerationJob}
    (s : JobStore) (id : String) (fresh : String) (now : Nat)
    (hfind : get_job s id = some job) (hnc : job.status ≠ .completed)
    (hsd : job.serp_data = none) :
    SEOAgent.resume_job s id fresh svc now =
      (match SEOAgent.generate_article s fresh job.request svc now with
       | (s', .ok v) => (s', .ok v)
       | (s', .error e) => handleFailure s' id e now) := by
  unfold SEOAgent.resume_job
  rw [hfind]
  simp [if_neg hnc, hsd]

/-- Provenance of one step: a record with an error message in the store
after an operation either inherited it from a record already in the store,
or the operation itself supplied that (non-empty) message. -/
theorem applyOp_err {s : JobStore} {op : StoreOp} {k : GenerationJob} {e : String}
    (hk : k ∈ applyOp s op) (he : k.error_message = some e) :
    (∃ k' ∈ s, k'.error_message = some e) ∨ op.suppliesError e := by
  cases op with
  | create fresh request now =>
      unfold applyOp create_job at hk
      dsimp only at hk
      rcases mem_saveJob hk with rfl | hks
      · simp [pendingJob] at he
      · exact Or.inl ⟨k, hks, he⟩
  | updateStatus id status error now =>
      unfold applyOp at hk
      dsimp only at hk
      cases hg : get_job s id with
      | none =>
          have hq : update_job_status s id status error now =
              .error ("Job " ++ id ++ " not found") := by
            unfold update_job_status
            rw [hg]
          rw [hq] at hk
          exact Or.inl ⟨k, hk, he⟩
      | some job =>
          cases error with
          | none =>
              have hq : update_job_status s id status none now =
                  .ok (saveJob s { job with status := status, updated_at := now }) := by
                unfold update_job_status
                rw [hg]
              rw [hq] at hk
              rcases mem_saveJob hk with rfl | hks
              · exact Or.inl ⟨job, mem_of_get_job hg, he⟩
              · exact Or.inl ⟨k, hks, he⟩
          | some e' =>
              by_cases hee : e' = ""
              · subst hee
                have hq : update_job_status s id status (some "") now =
                    .ok (saveJob s { job with status := status, updated_at := now }) := by
                  unfold update_job_status
                  rw [hg]
                  rfl
                rw [hq] at hk
                rcases mem_saveJob hk with rfl | hks
                · exact Or.inl ⟨job, mem_of_get_job hg, he⟩
                · exact Or.inl ⟨k, hks, he⟩
              · have hq : update_job_status s id status (some e') now =
                    .ok (saveJob s
                      { job with status := status, updated_at := now,
                                 error_message := some e' }) := by
                  unfold update_job_status
                  rw [hg]
                  dsimp only
                  rw [if_neg hee]
                rw [hq] at hk
                rcases mem_saveJob hk with rfl | hks
                · have heq : e' = e := by simpa using he
                  subst heq
                  exact Or.inr ⟨rfl, hee⟩
                · exact Or.inl ⟨k, hks, he⟩
  | saveSource id serp now =>
      unfold applyOp at hk
      dsimp only at hk
      cases hg : get_job s id with
      | none =>
          have hq : save_serp_data s id serp now =
              .error ("Job " ++ id ++ " not found") := by
            unfold save_serp_data
            rw [hg]
          rw [hq] at hk
          exact Or.inl ⟨k, hk, he⟩
      | some job =>
          have hq : save_serp_data s id serp now =
              .ok (saveJob s { job with serp_data := some serp, updated_at := now }) := by
            unfold save_serp_data
            rw [hg]
          rw [hq] at hk
          rcases mem_saveJob hk with rfl | hks
          · exact Or.inl ⟨job, mem_of_get_job hg, he⟩
          · exact Or.inl ⟨k, hks, he⟩
  | saveArt id article now =>
      unfold applyOp at hk
      dsimp only at hk
      cases hg : get_job s id with
      | none =>
          have hq : save_article s id article now =
              .error ("Job " ++ id ++ " not found") := by
            unfold save_article
            rw [hg]
          rw [hq] at hk
          exact Or.inl ⟨k, hk, he⟩
      | some job =>
          have hq : save_article s id article now =
              .ok (saveJob s
                { job with article := some article,
                           status := JobStatus.completed, updated_at := now }) := by
            unfold save_article
            rw [hg]
          rw [hq] at hk
          rcases mem_saveJob hk with rfl | hks
          · exact Or.inl ⟨job, mem_of_get_job hg, he⟩
          · exact Or.inl ⟨k, hks, he⟩
  | startGeneration fresh request svc now =>
      unfold applyOp at hk
      dsimp only at hk
      cases hp : pipelineGen svc request with
      | ok art =>
          rw [generate_article_eq_okS s fresh now hp] at hk
          dsimp only at hk
          rcases mem_genOkStore hk with hks | hnone
          · exact Or.inl ⟨k, hks, he⟩
          · rw [hnone] at he
            simp at he
      | error e' =>
          rw [generate_article_eq_errS s fresh now hp] at hk
          dsimp only at hk
          rcases mem_genFailStore hk with hks | hnone | ⟨hmsg, hne⟩
          · exact Or.inl ⟨k, hks, he⟩
          · rw [hnone] at he
            simp at he
          · rw [hmsg] at he
            have heq : e' = e := by simpa using he
            subst heq
            refine Or.inr ⟨hne, generate_outline (get_serp_data request.topic)
              (extract_themes (get_serp_data request.topic)),
              extract_questions (get_serp_data request.topic), ?_⟩
            simpa [pipelineGen] using hp
  | resume id fresh svc now =>
      unfold applyOp at hk
      dsimp only at hk
      cases hg : get_job s id with
      | none =>
          have hq : SEOAgent.resume_job s id fresh svc now =
              (s, .error ("Job " ++ id ++ " not found")) := by
            unfold SEOAgent.resume_job
            rw [hg]
          rw [hq] at hk
          exact Or.inl ⟨k, hk, he⟩
      | some job =>
          by_cases hcomp : job.status = .completed
          · have hq : SEOAgent.resume_job s id fresh svc now = (s, .ok (some job)) := by
              unfold SEOAgent.resume_job
              rw [hg]
              simp [hcomp]
            rw [hq] at hk
            exact Or.inl ⟨k, hk, he⟩
          · cases hsd : job.serp_data with
            | some sd =>
                cases hgen : resumeGen svc job sd with
                | ok art =>
                    rw [resume_job_eq_serp_ok s id fresh now hg hcomp hsd hgen] at hk
                    dsimp only at hk
                    rcases mem_saveJob hk with rfl | hks
                    · exact Or.inl ⟨job, mem_of_get_job hg, he⟩
                    · exact Or.inl ⟨k, hks, he⟩
                | error e' =>
                    rw [resume_job_eq_serp_err s id fresh now hg hcomp hsd hgen] at hk
                    dsimp only at hk
                    rcases mem_saveJob hk with rfl | hks
                    · by_cases hee : e' = ""
                      · have hinh : (resumeFailedJob job e' now).error_message =
                            job.error_message := by
                          unfold resumeFailedJob
                          rw [if_pos hee]
                        rw [hinh] at he
                        exact Or.inl ⟨job, mem_of_get_job hg, he⟩
                      · have hmsg : (resumeFailedJob job e' now).error_message =
                            some e' := by
                          unfold resumeFailedJob
                          rw [if_neg hee]
                        rw [hmsg] at he
                        have heq : e' = e := by simpa using he
                        subst heq
                        refine Or.inr ⟨hee, job.request.topic,
                          generate_outline sd (extract_themes sd),
                          job.request.target_word_count, extract_questions sd, ?_⟩
                        simpa [resumeGen] using hgen
                    · exact Or.inl ⟨k, hks, he⟩
            | none =>
                rw [resume_job_eq_noserp s id fresh now hg hcomp hsd] at hk
                cases hp : pipelineGen svc job.request with
                | ok art =>
                    rw [generate_article_eq_okS s fresh now hp] at hk
                    dsimp only at hk
                    rcases mem_genOkStore hk with hks | hnone
                    · exact Or.inl ⟨k, hks, he⟩
                    · rw [hnone] at he
                      simp at he
                | error e' =>
                    rw [generate_article_eq_errS s fresh now hp] at hk
                    dsimp only at hk
                    unfold handleFailure at hk
                    cases hgc : get_job (genFailStore s fresh job.request e' now) id with
                    | none =>
                        have hq : update_job_status (genFailStore s fresh job.request e' now)
                            id JobStatus.failed (some e') now =
                            .error ("Job " ++ id ++ " not found") := by
                          unfold update_job_status
                          rw [hgc]
                        rw [hq] at hk
                        dsimp only at hk
                        rcases mem_genFailStore hk with hks | hnone | ⟨hmsg, hne⟩
                        · exact Or.inl ⟨k, hks, he⟩
                        · rw [hnone] at he
                          simp at he
                        · rw [hmsg] at he
                          have heq : e' = e := by simpa using he
                          subst heq
                          refine Or.inr ⟨hne, job.request.topic,
                            generate_outline (get_serp_data job.request.topic)
                              (extract_themes (get_serp_data job.request.topic)),
                            job.request.target_word_count,
                            extract_questions (get_serp_data job.request.topic), ?_⟩
                          simpa [pipelineGen] using hp
                    | some j2 =>
                        by_cases hee : e' = ""
                        · subst hee
                          have hq : update_job_status (genFailStore s fresh job.request "" now)
                              id JobStatus.failed (some "") now =
                              .ok (saveJob (genFailStore s fresh job.request "" now)
                                { j2 with status := JobStatus.failed, updated_at := now }) := by
                            unfold update_job_status
                            rw [hgc]
                            rfl
                          rw [hq] at hk
                          dsimp only at hk
                          rcases mem_saveJob hk with rfl | hks
                          · rcases mem_genFailStore (mem_of_get_job hgc)
                              with hks2 | hnone | ⟨hmsg, hne⟩
                            · exact Or.inl ⟨j2, hks2, he⟩
                            · have he2 : j2.error_message = some e := he
                              rw [hnone] at he2
                              simp at he2
                            · exact absurd rfl hne
                          · rcases mem_genFailStore hks with hks2 | hnone | ⟨hmsg, hne⟩
                            · exact Or.inl ⟨k, hks2, he⟩
                            · rw [hnone] at he
                              simp at he
                            · exact absurd rfl hne
                        · have hq : update_job_status (genFailStore s fresh job.request e' now)
                              id JobStatus.failed (some e') now =
                              .ok (saveJob (genFailStore s fresh job.request e' now)
                                { j2 with status := JobStatus.failed, updated_at := now,
                                          error_message := some e' }) := by
                            unfold update_job_status
                            rw [hgc]
                            dsimp only
                            rw [if_neg hee]
                          rw [hq] at hk
                          dsimp only at hk
                          have hsup : StoreOp.suppliesError
                              (StoreOp.resume id fresh svc now) e' := by
                            refine ⟨hee, job.request.topic,
                              generate_outline (get_serp_data job.request.topic)
                                (extract_themes (get_serp_data job.request.topic)),
                              job.request.target_word_count,
                              extract_questions (get_serp_data job.request.topic), ?_⟩
                            simpa [pipelineGen] using hp
                          rcases mem_saveJob hk with rfl | hks
                          · have heq : e' = e := by simpa using he
                            subst heq
                            exact Or.inr hsup
                          · rcases mem_genFailStore hks with hks2 | hnone | ⟨hmsg, hne⟩
                            · exact Or.inl ⟨k, hks2, he⟩
                            · rw [hnone] at he
                              simp at he
                            · rw [hmsg] at he
                              have heq : e' = e := by simpa using he
                              subst heq
                              exact Or.inr hsup

/-- C3 (amended): in every store reachable from the empty table by Job
Store and Orchestrator operations, a record carries `errorMessage = e` only
if some operation of the history explicitly supplied that non-empty error —
an `updateStatus` called with it, or a start/resume whose pipeline failed
with it.  No operation invents or clears a message on its own; in
particular the status of such a record need not be Failed, because
`save_article` (and hence a successful resume) forces Completed while
preserving the inherited `errorMessage`. -/
theorem C3_error_provenance :
    ∀ (ops : List StoreOp), ∀ k ∈ runOps ops, ∀ e, k.error_message = some e →
      ∃ op ∈ ops, op.suppliesError e := by
  intro ops
  induction ops using List.reverseRecOn with
  | nil =>
      intro k hk e he
      simp [runOps] at hk
  | append_singleton ops op ih =>
      intro k hk e he
      have hk' : k ∈ applyOp (runOps ops) op := by
        unfold runOps at hk ⊢
        rw [List.foldl_append] at hk
        simpa using hk
      rcases applyOp_err hk' he with ⟨k', hk2, he2⟩ | hs
      · obtain ⟨op', hop', hsup⟩ := ih k' hk2 e he2
        exact ⟨op', List.mem_append_left _ hop', hsup⟩
      · exact ⟨op, List.mem_append_right _ (by simp), hs⟩

/-- The organic two-step history refuting C3 as stated: a generation that
fails with `"boom"` (leaving a Failed record with the SERP checkpoint),
then a resume whose regeneration succeeds. -/
def opsC3 : List StoreOp :=
  [.startGeneration "A" req0 (.error "boom") 0, .resume "A" "B" (.ok none) 1]

/-- C3, counterexample: after that history the job is Completed yet still
carries `errorMessage = "boom"` — `save_article` forces status Completed
without clearing the message, so `errorMessage ≠ null` does not imply
status Failed. -/
theorem C3_counterexample :
    (get_job (runOps opsC3) "A").map (fun j => (j.status, j.error_message)) =
      some (JobStatus.completed, some "boom") := by decide

/-- A minimal history attaching `"x"` through `updateStatus`. -/
def opsW3 : List StoreOp :=
  [.create "A" req0 0, .updateStatus "A" .failed (some "x") 1]

/-- The record that history leaves in the store. -/
def jF3 : GenerationJob :=
  { job_id := "A", status := .failed, request := req0, serp_data := none,
    article := none, error_message := some "x", created_at := 0, updated_at := 1 }

/-- Witness for C3 (amended) on a concrete history. -/
theorem C3_witness : ∃ op ∈ opsW3, op.suppliesError "x" :=
  C3_error_provenance opsW3 jF3 (by decide) "x" rfl
